import Mathlib

/-!
Verification of the Exen Protocol lending core against its specification.

The development shallowly embeds three source modules:
  * `credit_scorecard.py`  (namespace `Scorecard`)
  * `credit_decision.py`   (namespace `Decision`)
  * `credit_approval.py`   (namespace `Approval`)

Conventions of the embedding:
  * Python `Decimal` values are modelled as exact rationals (`ℚ`).  `Decimal`
    is arbitrary-precision decimal floating point (28 significant digits by
    default); at every concrete input used below the two agree exactly.
  * `Decimal.quantize(Decimal('0'))` / `quantize(Decimal('1'))` round to an
    integer with the default ROUND_HALF_EVEN mode, modelled by
    `roundHalfEven`; `quantize(Decimal('0.00'))` is `quantizeCent`.
  * timestamps are day numbers (`ℤ`); `(a - b).days` becomes `a - b`.
  * Python `dict`s keyed by the strings `"LOAN_<n>"` / `"DEPOSIT_<n>"` are
    keyed here by the integer `n` (the key strings are in bijection with the
    counter values that generate them); the display string is kept inside the
    record.
  * fallible operations return an explicit outcome value; an uncaught Python
    exception (AttributeError) is an explicit outcome constructor.
-/

/-- Round a rational to the nearest integer, ties to the even integer.
This is `Decimal.quantize` with exponent 0 under ROUND_HALF_EVEN (the
default decimal context rounding). -/
def roundHalfEven (q : ℚ) : ℤ :=
  let n := ⌊q⌋
  let r := q - (n : ℚ)
  if r < 1/2 then n
  else if 1/2 < r then n + 1
  else if n % 2 = 0 then n else n + 1

/-- `Decimal.quantize(Decimal('0.01'))` / `quantize(Decimal('0.00'))`:
round to two decimal places, ties to even. -/
def quantizeCent (q : ℚ) : ℚ :=
  ((roundHalfEven (q * 100) : ℤ) : ℚ) / 100

/-- Python `dict` assignment `d[k] = v`: replace the binding if the key is
present, otherwise append it (insertion order preserved). -/
def dictInsert {β : Type} (k : ℕ) (v : β) : List (ℕ × β) → List (ℕ × β)
  | [] => [(k, v)]
  | (k', v') :: rest =>
      if k = k' then (k, v) :: rest else (k', v') :: dictInsert k v rest

/-- Python `dict` lookup `d.get(k)` over the association-list model. -/
def dictLookup {β : Type} (k : ℕ) : List (ℕ × β) → Option β
  | [] => none
  | (k', v') :: rest => if k = k' then some v' else dictLookup k rest

namespace Scorecard

/-- `TransactionType` enum of `credit_scorecard.py`. -/
inductive TransactionType where
  | inflow
  | outflow
  | internal
  deriving DecidableEq, Repr

/-- `CreditRating` enum of `credit_scorecard.py`. -/
inductive CreditRating where
  | excellent
  | very_good
  | good
  | fair
  | poor
  deriving DecidableEq, Repr

/-- `Transaction` dataclass of `credit_scorecard.py`. -/
structure Transaction where
  tx_hash : String
  timestamp : ℤ
  amount : ℚ
  transaction_type : TransactionType
  counterparty : String
  description : String
  is_successful : Bool
  deriving DecidableEq, Repr

/-- `WalletMetrics` dataclass (with its field defaults). -/
structure WalletMetrics where
  total_inflow : ℚ := 0
  total_outflow : ℚ := 0
  net_flow : ℚ := 0
  inflow_count : ℕ := 0
  outflow_count : ℕ := 0
  avg_inflow : ℚ := 0
  avg_outflow : ℚ := 0
  transaction_count : ℕ := 0
  success_rate : ℚ := 100
  current_balance : ℚ := 0
  deriving DecidableEq, Repr

/-- `CredibilityFactors` dataclass. -/
structure CredibilityFactors where
  transaction_volume_score : ℚ
  payment_consistency_score : ℚ
  inflow_reliability_score : ℚ
  balance_stability_score : ℚ
  transaction_success_rate_score : ℚ
  account_age_score : ℚ
  deriving DecidableEq, Repr

/-- `CreditScoreReport` dataclass. -/
structure CreditScoreReport where
  wallet_address : String
  credit_score : ℚ
  credit_rating : CreditRating
  borrow_limit_usd : ℚ
  interest_rate_adjustment : ℚ
  metrics : WalletMetrics
  credibility_factors : CredibilityFactors
  analysis_timestamp : ℤ
  recommendation : String
  deriving DecidableEq, Repr

/-- `SolanaWalletAnalyzer._calculate_wallet_metrics`, as a function of the
wallet's stored balance and transaction list. -/
def calcWalletMetrics (current_balance : ℚ) (transactions : List Transaction) :
    WalletMetrics :=
  let base : WalletMetrics := { current_balance := current_balance }
  if transactions.isEmpty then base
  else
    let inflows := transactions.filter
      (fun tx => decide (tx.transaction_type = TransactionType.inflow))
    let outflows := transactions.filter
      (fun tx => decide (tx.transaction_type = TransactionType.outflow))
    let total_inflow := (inflows.map (fun tx => tx.amount)).sum
    let total_outflow := (outflows.map (fun tx => tx.amount)).sum
    let successful := (transactions.filter (fun tx => tx.is_successful)).length
    { current_balance := current_balance
      total_inflow := total_inflow
      total_outflow := total_outflow
      net_flow := total_inflow - total_outflow
      inflow_count := inflows.length
      outflow_count := outflows.length
      transaction_count := transactions.length
      avg_inflow := total_inflow / ((max inflows.length 1 : ℕ) : ℚ)
      avg_outflow := total_outflow / ((max outflows.length 1 : ℕ) : ℚ)
      success_rate := (successful : ℚ) / (transactions.length : ℚ) * 100 }

/-- `_calculate_transaction_volume_score`. -/
def calculate_transaction_volume_score (metrics : WalletMetrics) : ℚ :=
  let total_volume := metrics.total_inflow + metrics.total_outflow
  if total_volume < 100 then 2
  else if total_volume < 500 then 5
  else if total_volume < 1000 then 10
  else if total_volume < 5000 then 15
  else 20

/-- `_calculate_payment_consistency_score`.  The source local is named with a
`_ratio` suffix; it is called `consistency_quotient` here. -/
def calculate_payment_consistency_score (metrics : WalletMetrics) : ℚ :=
  if metrics.transaction_count < 3 then 2
  else if metrics.outflow_count = 0 then 5
  else
    let consistency_quotient :=
      (metrics.inflow_count : ℚ) / (metrics.outflow_count : ℚ)
    if 1.5 ≤ consistency_quotient then 18
    else if 1 ≤ consistency_quotient then 15
    else if 0.7 ≤ consistency_quotient then 12
    else if 0.5 ≤ consistency_quotient then 8
    else 4

/-- The source compares `cv = variance.sqrt() / mean_inflow` (taken as 0 when
`variance <= 0`) against a positive threshold `t`.  Rationals have no exact
square root, so the comparison is expressed through squares, which is
equivalent by strict monotonicity of squaring on nonnegatives: for
`variance > 0` and `mean > 0`, `sqrt(variance)/mean < t ↔ variance < t²·mean²`;
for `mean < 0` the quotient is negative, hence below any positive `t`. -/
def cvLtB (variance mean t : ℚ) : Bool :=
  if variance ≤ 0 then decide (0 < t)
  else if mean < 0 then true
  else decide (variance < t ^ 2 * mean ^ 2)

/-- `_calculate_inflow_reliability_score`.  Besides its `metrics` parameter the
source reads `self.wallets[self._current_wallet]["transactions"]` — the raw
transaction list of the wallet currently being scored, stashed in instance
state by `generate_credit_score`; that list is the second parameter here. -/
def calculate_inflow_reliability_score (metrics : WalletMetrics)
    (current_wallet_transactions : List Transaction) : ℚ :=
  if metrics.total_inflow = 0 then 2
  else if metrics.inflow_count < 2 then 5
  else
    let inflow_values := (current_wallet_transactions.filter
      (fun tx => decide (tx.transaction_type = TransactionType.inflow))).map
        (fun tx => tx.amount)
    if inflow_values.length < 2 then 10
    else
      let mean_inflow := metrics.avg_inflow
      let variance :=
        ((inflow_values.map (fun x => (x - mean_inflow) ^ 2)).sum) /
          (inflow_values.length : ℚ)
      if mean_inflow = 0 then 5
      else
        if cvLtB variance mean_inflow 0.2 then 18
        else if cvLtB variance mean_inflow 0.5 then 15
        else if cvLtB variance mean_inflow 1 then 12
        else 8

/-- `_calculate_balance_stability_score`.  The source local is named with a
`_ratio` suffix; it is called `balance_quotient` here. -/
def calculate_balance_stability_score (metrics : WalletMetrics) : ℚ :=
  if metrics.net_flow ≤ 0 then 5
  else if metrics.current_balance ≤ 0 then 2
  else
    let balance_quotient :=
      if metrics.avg_outflow = 0 then (100 : ℚ)
      else metrics.current_balance / metrics.avg_outflow
    if 10 ≤ balance_quotient then 20
    else if 5 ≤ balance_quotient then 16
    else if 2 ≤ balance_quotient then 12
    else if 1 ≤ balance_quotient then 8
    else 4

/-- `_calculate_transaction_success_rate_score`. -/
def calculate_transaction_success_rate_score (metrics : WalletMetrics) : ℚ :=
  if 98 ≤ metrics.success_rate then 20
  else if 95 ≤ metrics.success_rate then 16
  else if 90 ≤ metrics.success_rate then 12
  else if 80 ≤ metrics.success_rate then 8
  else 2

/-- `_calculate_account_age_score`, as a function of
`(datetime.now() - created_at).days`. -/
def calculate_account_age_score (age_days : ℤ) : ℚ :=
  if 365 ≤ age_days then 20
  else if 180 ≤ age_days then 15
  else if 90 ≤ age_days then 10
  else if 30 ≤ age_days then 5
  else 2

/-- Recommendation string keyed by rating (from `generate_credit_score`). -/
def recommendationFor : CreditRating → String
  | CreditRating.excellent =>
      "Excellent on-chain history. Eligible for maximum borrowing at favorable rates."
  | CreditRating.very_good =>
      "Very good on-chain behavior. Eligible for substantial borrowing with competitive rates."
  | CreditRating.good => "Good transaction history. Standard borrowing rates apply."
  | CreditRating.fair => "Fair on-chain activity. Limited borrowing available at higher rates."
  | CreditRating.poor =>
      "Poor transaction history. Not recommended for lending at this time. Build more on-chain activity."

/-- `SolanaWalletAnalyzer.generate_credit_score` for a registered wallet, as a
function of the wallet's stored data (`current_balance`, `transactions`,
account age in days) and the analysis time.  The unregistered-wallet `None`
branch is handled by the caller side and not modelled here.  The
`actual_rate` local of the source is only printed, never returned, and is
omitted. -/
def generate_credit_score (wallet_address : String) (current_balance : ℚ)
    (transactions : List Transaction) (age_days : ℤ) (now : ℤ) :
    CreditScoreReport :=
  let metrics := calcWalletMetrics current_balance transactions
  let credibility_factors : CredibilityFactors :=
    { transaction_volume_score := calculate_transaction_volume_score metrics
      payment_consistency_score := calculate_payment_consistency_score metrics
      inflow_reliability_score :=
        calculate_inflow_reliability_score metrics transactions
      balance_stability_score := calculate_balance_stability_score metrics
      transaction_success_rate_score :=
        calculate_transaction_success_rate_score metrics
      account_age_score := calculate_account_age_score age_days }
  let total_score :=
    (credibility_factors.transaction_volume_score +
     credibility_factors.payment_consistency_score +
     credibility_factors.inflow_reliability_score +
     credibility_factors.balance_stability_score +
     credibility_factors.transaction_success_rate_score) / 5
  let credit_score : ℚ :=
    ((roundHalfEven (300 + (total_score / 20) * 550) : ℤ) : ℚ)
  let rating :=
    if 750 ≤ credit_score then CreditRating.excellent
    else if 650 ≤ credit_score then CreditRating.very_good
    else if 550 ≤ credit_score then CreditRating.good
    else if 450 ≤ credit_score then CreditRating.fair
    else CreditRating.poor
  let borrow_limit : ℚ :=
    ((roundHalfEven (1000 * (credit_score / 850)) : ℤ) : ℚ)
  let rate_adjustment : ℚ :=
    match rating with
    | CreditRating.excellent => -1.5
    | CreditRating.very_good => -0.5
    | CreditRating.good => 0
    | CreditRating.fair => 2
    | CreditRating.poor => 5
  { wallet_address := wallet_address
    credit_score := credit_score
    credit_rating := rating
    borrow_limit_usd := borrow_limit
    interest_rate_adjustment := rate_adjustment
    metrics := metrics
    credibility_factors := credibility_factors
    analysis_timestamp := now
    recommendation := recommendationFor rating }

/-- The sum of the five credibility sub-scores that
`generate_credit_score` averages into `total_score`. -/
def subScoreSum (current_balance : ℚ) (transactions : List Transaction) : ℚ :=
  let metrics := calcWalletMetrics current_balance transactions
  calculate_transaction_volume_score metrics +
    calculate_payment_consistency_score metrics +
    calculate_inflow_reliability_score metrics transactions +
    calculate_balance_stability_score metrics +
    calculate_transaction_success_rate_score metrics

end Scorecard

namespace Decision

/-- `DecisionStatus` enum of `credit_decision.py`. -/
inductive DecisionStatus where
  | approved
  | conditional_approval
  | denied
  | pending_review
  deriving DecidableEq, Repr

/-- `RiskLevel` enum of `credit_decision.py`. -/
inductive RiskLevel where
  | minimal
  | low
  | moderate
  | high
  | very_high
  deriving DecidableEq, Repr

/-- `LoanRequest` dataclass. -/
structure LoanRequest where
  request_id : String
  wallet_address : String
  collateral_amount : ℚ
  borrow_amount_usd : ℚ
  collateral_token_price : ℚ
  credit_score : ℚ
  credit_rating : String
  total_inflow : ℚ
  total_outflow : ℚ
  net_flow : ℚ
  current_balance : ℚ
  transaction_success_rate : ℚ
  transaction_count : ℕ
  average_inflow : ℚ
  requested_at : ℤ
  deriving DecidableEq, Repr

/-- `RiskAssessment` dataclass. -/
structure RiskAssessment where
  collateral_risk : ℚ
  credit_risk : ℚ
  liquidity_risk : ℚ
  behavioral_risk : ℚ
  overall_risk_score : ℚ
  risk_level : RiskLevel
  key_risk_factors : List String := []
  deriving DecidableEq, Repr

/-- `LoanTerms` dataclass.  The source field named with a `_ratio` suffix is
called `ltv_percent` here (an LTV expressed as a percentage). -/
structure LoanTerms where
  loan_amount : ℚ
  interest_rate : ℚ
  ltv_percent : ℚ
  collateral_required : ℚ
  liquidation_threshold : ℚ
  repayment_period_days : ℤ
  monthly_payment : ℚ
  total_interest : ℚ
  deriving DecidableEq, Repr

/-- `LoanDecision` dataclass (with its field defaults). -/
structure LoanDecision where
  decision_id : String
  request_id : String
  wallet_address : String
  status : DecisionStatus
  decision_timestamp : ℤ
  risk_assessment : RiskAssessment
  proposed_terms : Option LoanTerms
  approval_reason : String
  denial_reason : Option String
  conditions : List String := []
  collateral_required : ℚ := 0
  max_ltv : ℚ := 0
  confidence_score : ℚ := 0
  manual_review_required : Bool := false
  manual_review_reason : Option String := none
  deriving DecidableEq, Repr

/-- `AutoDecisionEngine.__init__` configuration thresholds. -/
def base_ltv : ℚ := 60
def min_credit_score : ℚ := 400
def min_transactions : ℕ := 3
def min_success_rate : ℚ := 80
def max_loan_amount_usd : ℚ := 500000
def min_loan_amount_usd : ℚ := 100

/-- `AutoDecisionEngine.assess_collateral_risk`. -/
def assess_collateral_risk (loan_request : LoanRequest) : ℚ :=
  let collateral_value :=
    loan_request.collateral_amount * loan_request.collateral_token_price
  if collateral_value ≤ 0 then 100
  else
    let ltv := loan_request.borrow_amount_usd / collateral_value * 100
    if ltv ≤ 30 then 5
    else if ltv ≤ 50 then 15
    else if ltv ≤ 60 then 25
    else if ltv ≤ 75 then 50
    else 80

/-- `AutoDecisionEngine.assess_credit_risk`. -/
def assess_credit_risk (loan_request : LoanRequest) : ℚ :=
  let score := loan_request.credit_score
  if 750 ≤ score then 5
  else if 650 ≤ score then 15
  else if 550 ≤ score then 30
  else if 450 ≤ score then 60
  else 85

/-- `AutoDecisionEngine.assess_liquidity_risk`.  The source local named with
a `_ratio` suffix is called `cash_flow_quotient` here; like the source, it is
computed but never used afterwards. -/
def assess_liquidity_risk (loan_request : LoanRequest) : ℚ :=
  let cash_flow_quotient :=
    if loan_request.total_outflow = 0 then (100 : ℚ)
    else loan_request.current_balance / loan_request.total_outflow
  let estimated_monthly_outflow := loan_request.average_inflow * 0.8
  let outflow_coverage :=
    if estimated_monthly_outflow = 0 then (100 : ℚ)
    else loan_request.current_balance / estimated_monthly_outflow
  let _ := cash_flow_quotient
  if 6 ≤ outflow_coverage then 10
  else if 3 ≤ outflow_coverage then 20
  else if 1 ≤ outflow_coverage then 40
  else if 0.5 ≤ outflow_coverage then 65
  else 90

/-- `AutoDecisionEngine.assess_behavioral_risk`. -/
def assess_behavioral_risk (loan_request : LoanRequest) : ℚ :=
  let risk : ℚ := 0
  let risk := risk +
    (if loan_request.transaction_count < 5 then (20 : ℚ)
     else if loan_request.transaction_count < 20 then 10
     else if loan_request.transaction_count < 50 then 5
     else 0)
  let risk := risk +
    (if loan_request.transaction_success_rate < 80 then (25 : ℚ)
     else if loan_request.transaction_success_rate < 95 then 10
     else 0)
  let risk := risk +
    (if loan_request.net_flow ≤ 0 then (30 : ℚ)
     else if loan_request.net_flow < loan_request.average_inflow * 0.5 then 15
     else 0)
  min risk 100

/-- `AutoDecisionEngine.perform_risk_assessment`. -/
def perform_risk_assessment (loan_request : LoanRequest) : RiskAssessment :=
  let collateral_risk := assess_collateral_risk loan_request
  let credit_risk := assess_credit_risk loan_request
  let liquidity_risk := assess_liquidity_risk loan_request
  let behavioral_risk := assess_behavioral_risk loan_request
  let overall_risk := quantizeCent
    (collateral_risk * 0.30 + credit_risk * 0.35 +
     liquidity_risk * 0.20 + behavioral_risk * 0.15)
  let risk_level :=
    if overall_risk ≤ 15 then RiskLevel.minimal
    else if overall_risk ≤ 30 then RiskLevel.low
    else if overall_risk ≤ 50 then RiskLevel.moderate
    else if overall_risk ≤ 75 then RiskLevel.high
    else RiskLevel.very_high
  let key_factors :=
    (if 50 < collateral_risk then ["High collateral risk"] else []) ++
    (if 50 < credit_risk then ["Poor credit history"] else []) ++
    (if 50 < liquidity_risk then ["Low cash flow coverage"] else []) ++
    (if 50 < behavioral_risk then ["Concerning transaction patterns"] else [])
  { collateral_risk := collateral_risk
    credit_risk := credit_risk
    liquidity_risk := liquidity_risk
    behavioral_risk := behavioral_risk
    overall_risk_score := overall_risk
    risk_level := risk_level
    key_risk_factors := key_factors }

/-- `AutoDecisionEngine.calculate_loan_terms`. -/
def calculate_loan_terms (loan_request : LoanRequest)
    (risk_assessment : RiskAssessment) : LoanTerms :=
  let collateral_value :=
    loan_request.collateral_amount * loan_request.collateral_token_price
  let (ltv, interest_rate) : ℚ × ℚ :=
    match risk_assessment.risk_level with
    | RiskLevel.minimal => (base_ltv, 8)
    | RiskLevel.low => (base_ltv, 10)
    | RiskLevel.moderate => (base_ltv * 0.9, 12)
    | RiskLevel.high => (base_ltv * 0.7, 15)
    | RiskLevel.very_high => (base_ltv * 0.5, 18)
  let credit_score_factor := (loan_request.credit_score - 300) / 550
  let interest_rate := interest_rate * (1 - credit_score_factor * 0.4)
  let interest_rate := max interest_rate 5
  let interest_rate := min interest_rate 18
  let max_loan := collateral_value * ltv / 100
  let loan_amount := min loan_request.borrow_amount_usd max_loan
  let repayment_days : ℤ := 180
  let annual_interest := loan_amount * interest_rate / 100
  let total_interest := annual_interest * (repayment_days : ℚ) / 365
  let monthly_payment := (loan_amount + total_interest) / 6
  { loan_amount := quantizeCent loan_amount
    interest_rate := quantizeCent interest_rate
    ltv_percent := quantizeCent ltv
    collateral_required := loan_request.collateral_amount
    liquidation_threshold := 1
    repayment_period_days := repayment_days
    monthly_payment := quantizeCent monthly_payment
    total_interest := quantizeCent total_interest }

/-- `AutoDecisionEngine.make_decision`.  The engine's mutable
`decision_counter` is passed in as `n` (its already-incremented value, used
for the decision id) and `datetime.now()` as `now`; neither affects any
decision outcome.  The decision log append is outside this per-request
computation. -/
def make_decision (n : ℕ) (now : ℤ) (loan_request : LoanRequest) :
    LoanDecision :=
  let decision_id := "DECISION_" ++ toString n
  if loan_request.credit_score < min_credit_score then
    { decision_id := decision_id
      request_id := loan_request.request_id
      wallet_address := loan_request.wallet_address
      status := DecisionStatus.denied
      decision_timestamp := now
      risk_assessment :=
        { collateral_risk := 0, credit_risk := 100, liquidity_risk := 0
          behavioral_risk := 0, overall_risk_score := 100
          risk_level := RiskLevel.very_high }
      proposed_terms := none
      approval_reason := ""
      denial_reason := some ("Credit score " ++ toString loan_request.credit_score
        ++ " below minimum " ++ toString min_credit_score)
      confidence_score := 99 }
  else if loan_request.transaction_count < min_transactions then
    { decision_id := decision_id
      request_id := loan_request.request_id
      wallet_address := loan_request.wallet_address
      status := DecisionStatus.pending_review
      decision_timestamp := now
      risk_assessment :=
        { collateral_risk := 0, credit_risk := 0, liquidity_risk := 0
          behavioral_risk := 80, overall_risk_score := 80
          risk_level := RiskLevel.high
          key_risk_factors := ["Insufficient transaction history"] }
      proposed_terms := none
      approval_reason := ""
      denial_reason := none
      manual_review_reason := some "Insufficient on-chain history for auto approval"
      confidence_score := 40
      manual_review_required := true }
  else if max_loan_amount_usd < loan_request.borrow_amount_usd then
    { decision_id := decision_id
      request_id := loan_request.request_id
      wallet_address := loan_request.wallet_address
      status := DecisionStatus.denied
      decision_timestamp := now
      risk_assessment :=
        { collateral_risk := 0, credit_risk := 0, liquidity_risk := 0
          behavioral_risk := 0, overall_risk_score := 0
          risk_level := RiskLevel.minimal }
      proposed_terms := none
      approval_reason := ""
      denial_reason := some ("Loan amount exceeds maximum "
        ++ toString max_loan_amount_usd)
      confidence_score := 99 }
  else if loan_request.borrow_amount_usd < min_loan_amount_usd then
    { decision_id := decision_id
      request_id := loan_request.request_id
      wallet_address := loan_request.wallet_address
      status := DecisionStatus.denied
      decision_timestamp := now
      risk_assessment :=
        { collateral_risk := 0, credit_risk := 0, liquidity_risk := 0
          behavioral_risk := 0, overall_risk_score := 0
          risk_level := RiskLevel.minimal }
      proposed_terms := none
      approval_reason := ""
      denial_reason := some ("Loan amount below minimum "
        ++ toString min_loan_amount_usd)
      confidence_score := 99 }
  else
    let risk_assessment := perform_risk_assessment loan_request
    let loan_terms := calculate_loan_terms loan_request risk_assessment
    let (status, approval_reason, conditions, confidence, denial_reason) :
        DecisionStatus × String × List String × ℚ × Option String :=
      if risk_assessment.overall_risk_score ≤ 15 then
        (DecisionStatus.approved,
         "Minimal risk profile. Excellent credit history and collateral coverage.",
         [], 95, none)
      else if risk_assessment.overall_risk_score ≤ 30 then
        (DecisionStatus.approved,
         "Low risk profile. Good credit score and adequate collateral.",
         [], 90, none)
      else if risk_assessment.overall_risk_score ≤ 50 then
        (DecisionStatus.conditional_approval,
         "Moderate risk accepted with conditions.",
         ["Higher interest rate applied", "Reduced LTV ratio",
          "Monthly collateral health check required"], 75, none)
      else if risk_assessment.overall_risk_score ≤ 75 then
        (DecisionStatus.pending_review, "", [], 45, none)
      else
        (DecisionStatus.denied, "", [], 90,
         some ("Overall risk score " ++ toString risk_assessment.overall_risk_score
           ++ " exceeds approval threshold. Risk factors: "
           ++ String.intercalate ", " risk_assessment.key_risk_factors))
    { decision_id := decision_id
      request_id := loan_request.request_id
      wallet_address := loan_request.wallet_address
      status := status
      decision_timestamp := now
      risk_assessment := risk_assessment
      proposed_terms :=
        if status ≠ DecisionStatus.denied then some loan_terms else none
      approval_reason := approval_reason
      denial_reason :=
        if status ≠ DecisionStatus.denied then some approval_reason
        else denial_reason
      conditions := conditions
      collateral_required := loan_request.collateral_amount
      max_ltv := loan_terms.ltv_percent
      confidence_score := confidence
      manual_review_required := status = DecisionStatus.pending_review }

end Decision

namespace Approval

/-- `TransactionStatus` enum of `credit_approval.py`. -/
inductive TransactionStatus where
  | pending
  | in_progress
  | collateral_locked
  | funds_disbursed
  | completed
  | failed
  | cancelled
  deriving DecidableEq, Repr

/-- `EscrowStatus` enum of `credit_approval.py`. -/
inductive EscrowStatus where
  | empty
  | locked
  | liquidation_in_progress
  | released
  deriving DecidableEq, Repr

/-- `CollateralDeposit` dataclass. -/
structure CollateralDeposit where
  deposit_id : String
  loan_id : String
  wallet_address : String
  exen_amount : ℚ
  exen_price : ℚ
  collateral_value_usd : ℚ
  deposit_timestamp : ℤ
  status : EscrowStatus
  locked_until : ℤ
  health_factor : ℚ := 1.5
  deriving DecidableEq, Repr

/-- `FundsTransfer` dataclass. -/
structure FundsTransfer where
  transfer_id : String
  loan_id : String
  from_address : String
  to_address : String
  amount_usd : ℚ
  transfer_timestamp : ℤ
  status : TransactionStatus
  block_hash : Option String := none
  tx_hash : Option String := none
  deriving DecidableEq, Repr

/-- `LoanAccount` dataclass.  The linked `collateral_deposit` is a reference
to the shared deposit object, which in this embedding lives in the escrow
vault's deposit map; the loan stores its integer key (`none` = Python
`None`). -/
structure LoanAccount where
  loan_id : String
  wallet_address : String
  loan_amount_usd : ℚ
  interest_rate : ℚ
  collateral_amount_exen : ℚ
  collateral_price_usd : ℚ
  ltv_percent : ℚ
  repayment_period_days : ℤ
  origination_timestamp : ℤ
  repayment_due_date : ℤ
  status : TransactionStatus
  collateral_deposit : Option ℕ := none
  funds_transfer : Option FundsTransfer := none
  borrowed_amount_received : ℚ := 0
  repaid_amount : ℚ := 0
  accrued_interest : ℚ := 0
  deriving DecidableEq, Repr

/-- `EscrowAccount` dataclass.  Deposits are keyed by the counter value `n`
behind the source's key string (see the file header). -/
structure EscrowAccount where
  vault_id : String
  location : String
  total_collateral_locked : ℚ := 0
  deposits : List (ℕ × CollateralDeposit) := []
  status : EscrowStatus := EscrowStatus.empty
  deriving DecidableEq, Repr

/-- The mutable state of `LoanFundsTransferSystem`.  Loan accounts are keyed
by the counter value behind the `"LOAN_<n>"` key string.  The
`collateral_deposits` audit list holds references to the shared deposit
objects, modelled by their keys. -/
structure SystemState where
  loan_accounts : List (ℕ × LoanAccount) := []
  escrow_vault : EscrowAccount :=
    { vault_id := "EXEN_ESCROW_001", location := "escrow_vault" }
  fund_transfers : List FundsTransfer := []
  collateral_deposits : List ℕ := []
  transaction_counter : ℕ := 0
  loan_counter : ℕ := 0
  lending_pool_balance : ℚ := 100000
  lending_pool_address : String := "EXEN_LENDING_POOL_ADDRESS"
  deriving DecidableEq, Repr

/-- The state built by `LoanFundsTransferSystem.__init__`. -/
def initState : SystemState := {}

/-- Look up a loan account (`loan_id in self.loan_accounts` + access). -/
def lookupLoan (s : SystemState) (loanKey : ℕ) : Option LoanAccount :=
  dictLookup loanKey s.loan_accounts

/-- Look up a deposit in the escrow vault. -/
def lookupDeposit (s : SystemState) (depositKey : ℕ) :
    Option CollateralDeposit :=
  dictLookup depositKey s.escrow_vault.deposits

/-- `create_loan_account`.  Returns the created loan and the new state; the
new loan's key is the incremented `loan_counter`. -/
def create_loan_account (s : SystemState) (now : ℤ) (wallet_address : String)
    (loan_amount_usd interest_rate collateral_amount_exen
     collateral_price_usd ltv : ℚ) (repayment_days : ℤ) :
    LoanAccount × SystemState :=
  let counter := s.loan_counter + 1
  let loan : LoanAccount :=
    { loan_id := "LOAN_" ++ toString counter
      wallet_address := wallet_address
      loan_amount_usd := loan_amount_usd
      interest_rate := interest_rate
      collateral_amount_exen := collateral_amount_exen
      collateral_price_usd := collateral_price_usd
      ltv_percent := ltv
      repayment_period_days := repayment_days
      origination_timestamp := now
      repayment_due_date := now + repayment_days
      status := TransactionStatus.pending }
  (loan, { s with
      loan_counter := counter
      loan_accounts := dictInsert counter loan s.loan_accounts })

/-- `deposit_collateral`.  Note: the source checks only that the loan exists
and that `exen_amount` equals the loan's required collateral amount; it does
not inspect the loan's status. -/
def deposit_collateral (s : SystemState) (now : ℤ) (loanKey : ℕ)
    (exen_amount current_price : ℚ) : Option CollateralDeposit × SystemState :=
  match lookupLoan s loanKey with
  | none => (none, s)
  | some loan =>
    if exen_amount ≠ loan.collateral_amount_exen then (none, s)
    else
      let collateral_value := exen_amount * current_price
      let depositKey := s.transaction_counter
      let locked_until := now + loan.repayment_period_days + 30
      let deposit : CollateralDeposit :=
        { deposit_id := "DEPOSIT_" ++ toString depositKey
          loan_id := loan.loan_id
          wallet_address := loan.wallet_address
          exen_amount := exen_amount
          exen_price := current_price
          collateral_value_usd := collateral_value
          deposit_timestamp := now
          status := EscrowStatus.locked
          locked_until := locked_until }
      let vault := s.escrow_vault
      let vault := { vault with
        deposits := dictInsert depositKey deposit vault.deposits
        total_collateral_locked := vault.total_collateral_locked + collateral_value
        status := EscrowStatus.locked }
      let loan := { loan with
        collateral_deposit := some depositKey
        status := TransactionStatus.collateral_locked }
      (some deposit, { s with
        transaction_counter := depositKey + 1
        escrow_vault := vault
        loan_accounts := dictInsert loanKey loan s.loan_accounts
        collateral_deposits := s.collateral_deposits ++ [depositKey] })

/-- `verify_collateral_health`.  A pure read.  (For a loan with
`loan_amount_usd = 0` the source's `Decimal` division raises; the rational
convention `x / 0 = 0` makes the health check simply fail there, and no claim
depends on that case.) -/
def verify_collateral_health (s : SystemState) (loanKey : ℕ)
    (current_exen_price : ℚ) : Bool × ℚ :=
  match lookupLoan s loanKey with
  | none => (false, 0)
  | some loan =>
    match loan.collateral_deposit with
    | none => (false, 0)
    | some _ =>
      let current_collateral_value :=
        loan.collateral_amount_exen * current_exen_price
      let health_factor := current_collateral_value / loan.loan_amount_usd
      (decide (1 ≤ health_factor), health_factor)

/-- Outcome of `disburse_funds`: the source returns the transfer or `None`,
or lets an exception escape. -/
inductive DisburseOutcome where
  | ok (transfer : FundsTransfer)
  | failure
  | attributeError
  deriving DecidableEq, Repr

/-- `disburse_funds`.  After all preconditions pass, the source builds the
transfer, increments `transaction_counter`, and then calls
`_generate_tx_hash(transfer)`, whose body reads `transfer.timestamp` — a
field `FundsTransfer` does not define (the field is `transfer_timestamp`).
Python raises `AttributeError` there, before the pool decrement, the loan
update and the transfer append (source lines 348-359), so the success path
always terminates in the `attributeError` outcome with only the counter
mutated. -/
def disburse_funds (s : SystemState) (now : ℤ) (loanKey : ℕ) :
    DisburseOutcome × SystemState :=
  match lookupLoan s loanKey with
  | none => (DisburseOutcome.failure, s)
  | some loan =>
    if loan.status ≠ TransactionStatus.collateral_locked then
      (DisburseOutcome.failure, s)
    else if s.lending_pool_balance < loan.loan_amount_usd then
      (DisburseOutcome.failure, s)
    else
      let transferKey := s.transaction_counter
      let transfer : FundsTransfer :=
        { transfer_id := "TRANSFER_" ++ toString transferKey
          loan_id := loan.loan_id
          from_address := s.lending_pool_address
          to_address := loan.wallet_address
          amount_usd := loan.loan_amount_usd
          transfer_timestamp := now
          status := TransactionStatus.in_progress }
      let _ := transfer
      (DisburseOutcome.attributeError,
       { s with transaction_counter := transferKey + 1 })

/-- Outcome of `complete_loan_setup`: the source returns `(bool, str)` or
lets the `disburse_funds` exception escape. -/
inductive CompleteOutcome where
  | result (success : Bool) (message : String)
  | attributeError
  deriving DecidableEq, Repr

/-- `complete_loan_setup`: deposit collateral, verify health, disburse,
aborting at the first failure (earlier mutations are not rolled back). -/
def complete_loan_setup (s : SystemState) (now : ℤ) (loanKey : ℕ)
    (exen_amount current_exen_price : ℚ) : CompleteOutcome × SystemState :=
  let (deposit, s1) := deposit_collateral s now loanKey exen_amount current_exen_price
  match deposit with
  | none => (CompleteOutcome.result false "Failed to deposit collateral", s1)
  | some _ =>
    let (is_healthy, _) := verify_collateral_health s1 loanKey current_exen_price
    if ¬is_healthy then
      (CompleteOutcome.result false "Collateral health check failed", s1)
    else
      let (outcome, s2) := disburse_funds s1 now loanKey
      match outcome with
      | DisburseOutcome.failure =>
          (CompleteOutcome.result false "Failed to disburse funds", s2)
      | DisburseOutcome.attributeError => (CompleteOutcome.attributeError, s2)
      | DisburseOutcome.ok _ =>
        match lookupLoan s2 loanKey with
        | none => (CompleteOutcome.result false "Failed to disburse funds", s2)
        | some loan =>
          let loan := { loan with status := TransactionStatus.completed }
          (CompleteOutcome.result true
             ("Loan " ++ loan.loan_id ++ " approved and funded successfully"),
           { s2 with loan_accounts := dictInsert loanKey loan s2.loan_accounts })

/-- The collateral-release block of `process_repayment` (source lines
482-486): if the loan links a deposit, mark the shared deposit object
released and subtract its USD value from the escrow running total.  (The
`none` inner case — a linked key absent from the vault — cannot arise from
the operations below, which register every linked deposit in the vault.) -/
def releaseCollateral (s : SystemState) (linked : Option ℕ) : SystemState :=
  match linked with
  | none => s
  | some depositKey =>
    match lookupDeposit s depositKey with
    | none => s
    | some deposit =>
      let vault := s.escrow_vault
      { s with escrow_vault := { vault with
          deposits := dictInsert depositKey
            { deposit with status := EscrowStatus.released } vault.deposits
          total_collateral_locked :=
            vault.total_collateral_locked - deposit.collateral_value_usd } }

/-- `process_repayment`.  Simple interest accrues as
`principal * (rate/100) * (days_outstanding/365)` with
`days_outstanding = now - origination`.  Note: the source checks neither the
loan's status nor the linked deposit's escrow status before releasing. -/
def process_repayment (s : SystemState) (now : ℤ) (loanKey : ℕ)
    (repayment_amount_usd : ℚ) (from_address : String) : Bool × SystemState :=
  match lookupLoan s loanKey with
  | none => (false, s)
  | some loan =>
    let days_outstanding : ℤ := now - loan.origination_timestamp
    let accrued_interest :=
      loan.loan_amount_usd * (loan.interest_rate / 100) *
        ((days_outstanding : ℚ) / 365)
    let total_owed := loan.loan_amount_usd + accrued_interest
    if repayment_amount_usd < total_owed then (false, s)
    else
      let loan' := { loan with
        repaid_amount := repayment_amount_usd
        accrued_interest := accrued_interest }
      let s1 := { s with
        loan_accounts := dictInsert loanKey loan' s.loan_accounts }
      let s2 := releaseCollateral s1 loan.collateral_deposit
      let _ := from_address
      (true, { s2 with
        lending_pool_balance := s2.lending_pool_balance + repayment_amount_usd })

/-- The mutating operations of the loan system, each stamped with the
`datetime.now()` instant (a day number) at which it runs. -/
inductive Op where
  | create (now : ℤ) (wallet_address : String)
      (loan_amount_usd interest_rate collateral_amount_exen
       collateral_price_usd ltv : ℚ) (repayment_days : ℤ)
  | deposit (now : ℤ) (loanKey : ℕ) (exen_amount current_price : ℚ)
  | disburse (now : ℤ) (loanKey : ℕ)
  | complete (now : ℤ) (loanKey : ℕ) (exen_amount current_exen_price : ℚ)
  | repay (now : ℤ) (loanKey : ℕ) (repayment_amount_usd : ℚ)
      (from_address : String)
  deriving DecidableEq, Repr

/-- State transition of one mutating operation. -/
def step (s : SystemState) : Op → SystemState
  | Op.create now w amt rate coll price ltv days =>
      (create_loan_account s now w amt rate coll price ltv days).2
  | Op.deposit now k amt price => (deposit_collateral s now k amt price).2
  | Op.disburse now k => (disburse_funds s now k).2
  | Op.complete now k amt price => (complete_loan_setup s now k amt price).2
  | Op.repay now k amt addr => (process_repayment s now k amt addr).2

/-- Run a sequence of mutating operations. -/
def run (s : SystemState) (ops : List Op) : SystemState :=
  ops.foldl step s

/-- Sum of `collateral_value_usd` over the vault deposits whose status is
`locked`. -/
def lockedSum (deposits : List (ℕ × CollateralDeposit)) : ℚ :=
  ((deposits.filter
      (fun p => decide (p.2.status = EscrowStatus.locked))).map
    (fun p => p.2.collateral_value_usd)).sum

/-- The escrow-vault invariant: the running total equals the sum of the USD
values of the deposits currently locked. -/
def EscrowInvariant (s : SystemState) : Prop :=
  s.escrow_vault.total_collateral_locked = lockedSum s.escrow_vault.deposits

instance : DecidablePred EscrowInvariant := fun s =>
  inferInstanceAs (Decidable (s.escrow_vault.total_collateral_locked =
    lockedSum s.escrow_vault.deposits))

end Approval

/-! ### Concrete fixtures used by witnesses and counterexamples -/

namespace Fixtures

open Scorecard Decision Approval

/-- Wallet A: two successful inflows of 5 each. -/
def txsA : List Scorecard.Transaction :=
  [{ tx_hash := "a1", timestamp := 0, amount := 5,
     transaction_type := Scorecard.TransactionType.inflow,
     counterparty := "PaymentProcessor1", description := "Regular income",
     is_successful := true },
   { tx_hash := "a2", timestamp := 3, amount := 5,
     transaction_type := Scorecard.TransactionType.inflow,
     counterparty := "PaymentProcessor1", description := "Regular income",
     is_successful := true }]

/-- Wallet B: two successful inflows of 2 and 8 (same totals and counts as
wallet A, hence identical `WalletMetrics`, but a different distribution). -/
def txsB : List Scorecard.Transaction :=
  [{ tx_hash := "b1", timestamp := 0, amount := 2,
     transaction_type := Scorecard.TransactionType.inflow,
     counterparty := "PaymentProcessor1", description := "Payment",
     is_successful := true },
   { tx_hash := "b2", timestamp := 3, amount := 8,
     transaction_type := Scorecard.TransactionType.inflow,
     counterparty := "PaymentProcessor1", description := "Payment",
     is_successful := true }]

/-- A request passing gate 1 but failing gate 2 (credit score 500,
one transaction). -/
def reqHistoryGate : Decision.LoanRequest :=
  { request_id := "REQ_G2", wallet_address := "GateWallet2", collateral_amount := 1000
    borrow_amount_usd := 500, collateral_token_price := 1, credit_score := 500
    credit_rating := "fair", total_inflow := 100, total_outflow := 50
    net_flow := 50, current_balance := 20, transaction_success_rate := 100
    transaction_count := 1, average_inflow := 10, requested_at := 0 }

/-- A request failing gate 1 (credit score 300, one transaction) — the
spec's own example input. -/
def reqScoreGate : Decision.LoanRequest :=
  { reqHistoryGate with request_id := "REQ_G1", credit_score := 300 }

/-- A request passing gates 1-2 but failing gate 3 (amount 600000). -/
def reqMaxGate : Decision.LoanRequest :=
  { reqHistoryGate with
      request_id := "REQ_G3"
      transaction_count := 5
      borrow_amount_usd := 600000 }

/-- A request passing gates 1-3 but failing gate 4 (amount 50). -/
def reqMinGate : Decision.LoanRequest :=
  { reqHistoryGate with
      request_id := "REQ_G4"
      transaction_count := 5
      borrow_amount_usd := 50 }

/-- Create a 100 USD loan at rate 0 with 100 EXEN collateral required, then
deposit the matching collateral at price 1 (USD value 100).  All at day 0. -/
def opsSetup : List Approval.Op :=
  [Approval.Op.create 0 "BorrowerWallet1" 100 0 100 1 60 180,
   Approval.Op.deposit 0 1 100 1]

/-- State after `opsSetup`: loan 1 is collateral-locked on deposit 0. -/
def stateLocked : Approval.SystemState := Approval.run Approval.initState opsSetup

/-- The loan account stored under key 1 in `stateLocked`. -/
def loanLocked : Approval.LoanAccount :=
  { loan_id := "LOAN_1", wallet_address := "BorrowerWallet1"
    loan_amount_usd := 100, interest_rate := 0, collateral_amount_exen := 100
    collateral_price_usd := 1, ltv_percent := 60, repayment_period_days := 180
    origination_timestamp := 0, repayment_due_date := 180
    status := Approval.TransactionStatus.collateral_locked
    collateral_deposit := some 0 }

/-- The deposit stored under key 0 in `stateLocked`. -/
def depLocked : Approval.CollateralDeposit :=
  { deposit_id := "DEPOSIT_0", loan_id := "LOAN_1"
    wallet_address := "BorrowerWallet1", exen_amount := 100, exen_price := 1
    collateral_value_usd := 100, deposit_timestamp := 0
    status := Approval.EscrowStatus.locked, locked_until := 210 }

/-- State after `opsSetup` followed by a first (exact) repayment of 100:
deposit 0 is released, the escrow total is 0, the pool holds 100100. -/
def stateRepaid : Approval.SystemState :=
  Approval.run Approval.initState
    (opsSetup ++ [Approval.Op.repay 0 1 100 "BorrowerWallet1"])

/-- The loan account stored under key 1 in `stateRepaid`. -/
def loanRepaid : Approval.LoanAccount := { loanLocked with repaid_amount := 100 }

/-- The deposit stored under key 0 in `stateRepaid` (already released). -/
def depReleased : Approval.CollateralDeposit :=
  { depLocked with status := Approval.EscrowStatus.released }

/-- The demo loan of `credit_approval.py.__main__`: 5000 USD at 10% against
100000 EXEN at price 0.10, with its collateral deposited — the normal input
on which `disburse_funds` is next called. -/
def opsDemo : List Approval.Op :=
  [Approval.Op.create 0 "BorrowerWallet1111111111111111111111111"
     5000 10 100000 0.10 60 180,
   Approval.Op.deposit 0 1 100000 0.10]

/-- State after `opsDemo`. -/
def stateDemo : Approval.SystemState := Approval.run Approval.initState opsDemo

/-- The loan account stored under key 1 in `stateDemo`. -/
def loanDemo : Approval.LoanAccount :=
  { loan_id := "LOAN_1", wallet_address := "BorrowerWallet1111111111111111111111111"
    loan_amount_usd := 5000, interest_rate := 10, collateral_amount_exen := 100000
    collateral_price_usd := 0.10, ltv_percent := 60, repayment_period_days := 180
    origination_timestamp := 0, repayment_due_date := 180
    status := Approval.TransactionStatus.collateral_locked
    collateral_deposit := some 0 }

/-- The trace create → deposit → repay → repay: the second repayment
re-releases the already-released deposit. -/
def opsDouble : List Approval.Op :=
  opsSetup ++ [Approval.Op.repay 0 1 100 "BorrowerWallet1",
               Approval.Op.repay 0 1 100 "BorrowerWallet1"]

/-- The orderly trace create → deposit → repay (each loan repaid once). -/
def opsGood : List Approval.Op :=
  opsSetup ++ [Approval.Op.repay 0 1 100 "BorrowerWallet1"]

/-- State with loan 1 created (status Pending) and nothing else done. -/
def statePending : Approval.SystemState :=
  Approval.run Approval.initState
    [Approval.Op.create 0 "BorrowerWallet1" 100 0 100 1 60 180]

/-- The loan account stored under key 1 in `statePending`. -/
def loanPending : Approval.LoanAccount :=
  { loanLocked with
      status := Approval.TransactionStatus.pending
      collateral_deposit := none }

/-- A 200000 USD loan (more than the 100000 pool) with collateral locked:
the insufficient-funds input for `disburse_funds`. -/
def opsLarge : List Approval.Op :=
  [Approval.Op.create 0 "BigBorrower" 200000 10 1000 1 60 180,
   Approval.Op.deposit 0 1 1000 1]

/-- State after `opsLarge`. -/
def stateLarge : Approval.SystemState := Approval.run Approval.initState opsLarge

/-- The loan account stored under key 1 in `stateLarge`. -/
def loanLarge : Approval.LoanAccount :=
  { loan_id := "LOAN_1", wallet_address := "BigBorrower"
    loan_amount_usd := 200000, interest_rate := 10, collateral_amount_exen := 1000
    collateral_price_usd := 1, ltv_percent := 60, repayment_period_days := 180
    origination_timestamp := 0, repayment_due_date := 180
    status := Approval.TransactionStatus.collateral_locked
    collateral_deposit := some 0 }

end Fixtures

namespace Approval

/-- Vault well-formedness: every deposit key was allocated by a past value of
`transaction_counter`.  This holds in every reachable state and makes freshly
allocated deposit keys new. -/
def VaultWF (s : SystemState) : Prop :=
  ∀ p ∈ s.escrow_vault.deposits, p.1 < s.transaction_counter

/-- A `process_repayment` call is *orderly* when, if it is going to succeed
and the target loan has a linked deposit present in the vault, that deposit
is still locked.  (The source never checks this; a second successful
repayment of the same loan violates it.) -/
def goodRepay (s : SystemState) (now : ℤ) (loanKey : ℕ) (amt : ℚ) : Bool :=
  match lookupLoan s loanKey with
  | none => true
  | some loan =>
    let accrued_interest :=
      loan.loan_amount_usd * (loan.interest_rate / 100) *
        (((now - loan.origination_timestamp : ℤ) : ℚ) / 365)
    let total_owed := loan.loan_amount_usd + accrued_interest
    if amt < total_owed then true
    else
      match loan.collateral_deposit with
      | none => true
      | some depositKey =>
        match lookupDeposit s depositKey with
        | none => true
        | some deposit => decide (deposit.status = EscrowStatus.locked)

/-- An operation is orderly in a state when it is not a repayment that
re-releases an already-released deposit. -/
def goodOp (s : SystemState) : Op → Bool
  | Op.repay now k amt _ => goodRepay s now k amt
  | _ => true

/-- A trace is orderly when each operation is orderly in the state it runs
in. -/
def goodTrace (s : SystemState) : List Op → Bool
  | [] => true
  | op :: rest => goodOp s op && goodTrace (step s op) rest

/-- The accrued simple interest of `process_repayment`. -/
def repayInterest (loan : LoanAccount) (now : ℤ) : ℚ :=
  loan.loan_amount_usd * (loan.interest_rate / 100) *
    (((now - loan.origination_timestamp : ℤ) : ℚ) / 365)

/-- The total owed at repayment time: principal plus accrued interest. -/
def repayOwed (loan : LoanAccount) (now : ℤ) : ℚ :=
  loan.loan_amount_usd + repayInterest loan now

/-- The state of a loan account right after a successful repayment of
`amt`. -/
def repaidLoan (loan : LoanAccount) (now : ℤ) (amt : ℚ) : LoanAccount :=
  { loan with repaid_amount := amt, accrued_interest := repayInterest loan now }

/-- The system state after `process_repayment` has updated the loan record
but before collateral release and the pool credit. -/
def repayState (s : SystemState) (now : ℤ) (k : ℕ) (amt : ℚ)
    (loan : LoanAccount) : SystemState :=
  { s with loan_accounts := dictInsert k (repaidLoan loan now amt) s.loan_accounts }

/-- The `CollateralDeposit` record built by `deposit_collateral` when it
succeeds, with `key` the `transaction_counter` value used for the id. -/
def newDeposit (loan : LoanAccount) (now : ℤ) (key : ℕ) (amt price : ℚ) :
    CollateralDeposit :=
  { deposit_id := "DEPOSIT_" ++ toString key
    loan_id := loan.loan_id
    wallet_address := loan.wallet_address
    exen_amount := amt
    exen_price := price
    collateral_value_usd := amt * price
    deposit_timestamp := now
    status := EscrowStatus.locked
    locked_until := now + loan.repayment_period_days + 30 }

/-- The locked-value contribution of a single deposit. -/
def lockedVal (d : CollateralDeposit) : ℚ :=
  if d.status = EscrowStatus.locked then d.collateral_value_usd else 0

end Approval

/-! ### Association-list and rounding lemmas -/

theorem dictLookup_dictInsert {β : Type} (k q : ℕ) (v : β)
    (l : List (ℕ × β)) :
    dictLookup q (dictInsert k v l) =
      if q = k then some v else dictLookup q l := by
  induction l with
  | nil => by_cases hq : q = k <;> simp [dictInsert, dictLookup, hq]
  | cons p rest ih =>
    obtain ⟨k', v'⟩ := p
    by_cases hk : k = k'
    · subst hk
      by_cases hq : q = k <;> simp [dictInsert, dictLookup, hq]
    · by_cases hq : q = k'
      · subst hq
        have hqk : q ≠ k := fun h => hk (h ▸ rfl)
        simp [dictInsert, dictLookup, hk, hqk, Ne.symm hk]
      · simp [dictInsert, dictLookup, hq, hk, ih]

theorem dictLookup_eq_none_of_lt {β : Type} (l : List (ℕ × β)) (n : ℕ)
    (h : ∀ p ∈ l, p.1 < n) : dictLookup n l = none := by
  induction l with
  | nil => rfl
  | cons p rest ih =>
    obtain ⟨k', v'⟩ := p
    have hk : k' < n := h (k', v') (List.mem_cons_self _ _)
    have hne : n ≠ k' := by omega
    simp [dictLookup, hne]
    exact ih fun p hp => h p (List.mem_cons_of_mem _ hp)

theorem lockedSum_cons (p : ℕ × Approval.CollateralDeposit)
    (l : List (ℕ × Approval.CollateralDeposit)) :
    Approval.lockedSum (p :: l) =
      Approval.lockedVal p.2 + Approval.lockedSum l := by
  by_cases h : p.2.status = Approval.EscrowStatus.locked <;>
    simp [Approval.lockedSum, Approval.lockedVal, List.filter_cons, h]

theorem lockedSum_dictInsert_none (k : ℕ) (v : Approval.CollateralDeposit)
    (l : List (ℕ × Approval.CollateralDeposit)) (h : dictLookup k l = none) :
    Approval.lockedSum (dictInsert k v l) =
      Approval.lockedSum l + Approval.lockedVal v := by
  induction l with
  | nil =>
    rw [show dictInsert k v ([] : List (ℕ × Approval.CollateralDeposit)) =
      [(k, v)] from rfl, lockedSum_cons]
    simp [Approval.lockedSum]
  | cons p rest ih =>
    obtain ⟨k', v'⟩ := p
    by_cases hk : k = k'
    · subst hk; simp [dictLookup] at h
    · simp only [dictLookup, if_neg hk] at h
      simp only [dictInsert, if_neg hk]
      rw [lockedSum_cons, lockedSum_cons, ih h]
      ring

theorem lockedSum_dictInsert_some (k : ℕ) (v d : Approval.CollateralDeposit)
    (l : List (ℕ × Approval.CollateralDeposit)) (h : dictLookup k l = some d) :
    Approval.lockedSum (dictInsert k v l) =
      Approval.lockedSum l - Approval.lockedVal d + Approval.lockedVal v := by
  induction l with
  | nil => simp [dictLookup] at h
  | cons p rest ih =>
    obtain ⟨k', v'⟩ := p
    by_cases hk : k = k'
    · subst hk
      have hd : v' = d := by simpa [dictLookup] using h
      subst hd
      have hins : dictInsert k v ((k, v') :: rest) = (k, v) :: rest := by
        simp [dictInsert]
      rw [hins, lockedSum_cons, lockedSum_cons]
      ring
    · simp only [dictLookup, if_neg hk] at h
      simp only [dictInsert, if_neg hk]
      rw [lockedSum_cons, lockedSum_cons, ih h]
      ring

theorem roundHalfEven_mem (q : ℚ) :
    roundHalfEven q = ⌊q⌋ ∨ roundHalfEven q = ⌊q⌋ + 1 := by
  simp only [roundHalfEven]
  split
  · exact Or.inl rfl
  · split
    · exact Or.inr rfl
    · split
      · exact Or.inl rfl
      · exact Or.inr rfl

theorem roundHalfEven_eq_floor_of_lt {q : ℚ} (h : q - (⌊q⌋ : ℚ) < 1/2) :
    roundHalfEven q = ⌊q⌋ := by
  simp only [roundHalfEven]
  rw [if_pos h]

theorem le_roundHalfEven {m : ℤ} {q : ℚ} (h : (m : ℚ) ≤ q) :
    m ≤ roundHalfEven q := by
  have hf : m ≤ ⌊q⌋ := Int.le_floor.mpr h
  rcases roundHalfEven_mem q with hr | hr <;> omega

theorem roundHalfEven_le {m : ℤ} {q : ℚ} (h : q ≤ (m : ℚ)) :
    roundHalfEven q ≤ m := by
  have hf : ⌊q⌋ ≤ m := by
    have := Int.floor_mono h
    simpa using this
  rcases roundHalfEven_mem q with hr | hr
  · omega
  · by_cases hlt : q - (⌊q⌋ : ℚ) < 1/2
    · rw [roundHalfEven_eq_floor_of_lt hlt] at hr; omega
    · have hhalf : (1:ℚ)/2 ≤ q - (⌊q⌋ : ℚ) := le_of_not_lt hlt
      have h1 : (⌊q⌋ : ℚ) < q := by linarith
      have hlt2 : (⌊q⌋ : ℚ) < (m : ℚ) := lt_of_lt_of_le h1 h
      have h2 : ⌊q⌋ < m := by exact_mod_cast hlt2
      omega

theorem mem_dictInsert {β : Type} {p : ℕ × β} {k : ℕ} {v : β}
    {l : List (ℕ × β)} (h : p ∈ dictInsert k v l) : p = (k, v) ∨ p ∈ l := by
  induction l with
  | nil => simpa [dictInsert] using h
  | cons q rest ih =>
    obtain ⟨k', v'⟩ := q
    by_cases hk : k = k'
    · subst hk
      simp only [dictInsert, if_pos rfl] at h
      rcases List.mem_cons.mp h with h1 | h1
      · exact Or.inl h1
      · exact Or.inr (List.mem_cons_of_mem _ h1)
    · simp only [dictInsert, if_neg hk] at h
      rcases List.mem_cons.mp h with h1 | h1
      · exact Or.inr (h1 ▸ List.mem_cons_self _ _)
      · rcases ih h1 with h2 | h2
        · exact Or.inl h2
        · exact Or.inr (List.mem_cons_of_mem _ h2)

theorem dictLookup_mem {β : Type} {k : ℕ} {d : β} {l : List (ℕ × β)}
    (h : dictLookup k l = some d) : (k, d) ∈ l := by
  induction l with
  | nil => simp [dictLookup] at h
  | cons q rest ih =>
    obtain ⟨k', v'⟩ := q
    by_cases hk : k = k'
    · subst hk
      have hd : v' = d := by simpa [dictLookup] using h
      subst hd
      exact List.mem_cons_self _ _
    · simp only [dictLookup, if_neg hk] at h
      exact List.mem_cons_of_mem _ (ih h)

namespace Approval

theorem vaultWF_create (s : SystemState) (now : ℤ) (w : String)
    (amt rate coll price ltv : ℚ) (days : ℤ) (hw : VaultWF s) :
    VaultWF (create_loan_account s now w amt rate coll price ltv days).2 := by
  simpa [create_loan_account, VaultWF] using hw

theorem vaultWF_deposit (s : SystemState) (now : ℤ) (k : ℕ) (amt price : ℚ)
    (hw : VaultWF s) : VaultWF (deposit_collateral s now k amt price).2 := by
  unfold deposit_collateral
  cases hl : lookupLoan s k with
  | none => exact hw
  | some loan =>
    by_cases hne : amt ≠ loan.collateral_amount_exen
    · simpa [hne] using hw
    · simp only [if_neg hne]
      intro p hp
      simp only at hp
      rcases mem_dictInsert hp with h1 | h1
      · subst h1; simp
      · have := hw p h1; simp; omega

theorem vaultWF_disburse (s : SystemState) (now : ℤ) (k : ℕ)
    (hw : VaultWF s) : VaultWF (disburse_funds s now k).2 := by
  unfold disburse_funds
  cases hl : lookupLoan s k with
  | none => exact hw
  | some loan =>
    by_cases hst : loan.status ≠ TransactionStatus.collateral_locked
    · simpa [hst] using hw
    · by_cases hpool : s.lending_pool_balance < loan.loan_amount_usd
      · simpa [hst, hpool] using hw
      · simp only [if_neg hst, if_neg hpool]
        intro p hp
        simp only at hp
        have := hw p hp
        simp
        omega

theorem releaseCollateral_none (s : SystemState) :
    releaseCollateral s none = s := rfl

theorem releaseCollateral_some_none (s : SystemState) (dk : ℕ)
    (h : lookupDeposit s dk = none) : releaseCollateral s (some dk) = s := by
  simp only [releaseCollateral, h]

theorem releaseCollateral_some_some (s : SystemState) (dk : ℕ)
    (dep : CollateralDeposit) (h : lookupDeposit s dk = some dep) :
    releaseCollateral s (some dk) =
      { s with escrow_vault := { s.escrow_vault with
          deposits := dictInsert dk { dep with status := EscrowStatus.released }
            s.escrow_vault.deposits
          total_collateral_locked :=
            s.escrow_vault.total_collateral_locked - dep.collateral_value_usd } } := by
  simp only [releaseCollateral, h]

theorem process_repayment_none (s : SystemState) (now : ℤ) (k : ℕ) (amt : ℚ)
    (addr : String) (hl : lookupLoan s k = none) :
    process_repayment s now k amt addr = (false, s) := by
  simp only [process_repayment, hl]

theorem process_repayment_low (s : SystemState) (now : ℤ) (k : ℕ) (amt : ℚ)
    (addr : String) (loan : LoanAccount) (hl : lookupLoan s k = some loan)
    (hlt : amt < repayOwed loan now) :
    process_repayment s now k amt addr = (false, s) := by
  have hlt' : amt < loan.loan_amount_usd +
      loan.loan_amount_usd * (loan.interest_rate / 100) *
        (((now - loan.origination_timestamp : ℤ) : ℚ) / 365) := hlt
  simp only [process_repayment, hl, if_pos hlt']

theorem process_repayment_success (s : SystemState) (now : ℤ) (k : ℕ)
    (amt : ℚ) (addr : String) (loan : LoanAccount)
    (hl : lookupLoan s k = some loan) (hge : repayOwed loan now ≤ amt) :
    process_repayment s now k amt addr =
      (true,
        { releaseCollateral (repayState s now k amt loan)
            loan.collateral_deposit with
          lending_pool_balance :=
            (releaseCollateral (repayState s now k amt loan)
              loan.collateral_deposit).lending_pool_balance + amt }) := by
  have hlt : ¬(amt < loan.loan_amount_usd +
      loan.loan_amount_usd * (loan.interest_rate / 100) *
        (((now - loan.origination_timestamp : ℤ) : ℚ) / 365)) :=
    not_lt.mpr hge
  simp only [process_repayment, hl, if_neg hlt]
  rfl

theorem vaultWF_release (s : SystemState) (linked : Option ℕ)
    (hw : VaultWF s) : VaultWF (releaseCollateral s linked) := by
  cases linked with
  | none => rw [releaseCollateral_none]; exact hw
  | some dk =>
    cases hdep : lookupDeposit s dk with
    | none => rw [releaseCollateral_some_none s dk hdep]; exact hw
    | some dep =>
      rw [releaseCollateral_some_some s dk dep hdep]
      intro p hp
      simp only at hp
      rcases mem_dictInsert hp with h1 | h1
      · subst h1
        have := hw (dk, dep) (dictLookup_mem hdep)
        simpa using this
      · exact hw p h1

theorem vaultWF_loans (s : SystemState) (l : List (ℕ × LoanAccount))
    (hw : VaultWF s) : VaultWF { s with loan_accounts := l } := hw

theorem vaultWF_pool (s : SystemState) (q : ℚ) (hw : VaultWF s) :
    VaultWF { s with lending_pool_balance := q } := hw

theorem vaultWF_repay (s : SystemState) (now : ℤ) (k : ℕ) (amt : ℚ)
    (addr : String) (hw : VaultWF s) :
    VaultWF (process_repayment s now k amt addr).2 := by
  cases hl : lookupLoan s k with
  | none => rw [process_repayment_none s now k amt addr hl]; exact hw
  | some loan =>
    by_cases hlt : amt < repayOwed loan now
    · rw [process_repayment_low s now k amt addr loan hl hlt]; exact hw
    · rw [process_repayment_success s now k amt addr loan hl (not_lt.mp hlt)]
      exact vaultWF_pool _ _ (vaultWF_release _ _ (vaultWF_loans _ _ hw))

theorem vaultWF_complete (s : SystemState) (now : ℤ) (k : ℕ)
    (amt price : ℚ) (hw : VaultWF s) :
    VaultWF (complete_loan_setup s now k amt price).2 := by
  unfold complete_loan_setup
  rcases hdep : deposit_collateral s now k amt price with ⟨dres, s1⟩
  have hw1 : VaultWF s1 := by
    have := vaultWF_deposit s now k amt price hw
    rwa [hdep] at this
  cases dres with
  | none => exact hw1
  | some d =>
    by_cases hh : ¬(verify_collateral_health s1 k price).1
    · simpa [hh] using hw1
    · simp only [if_neg hh]
      rcases hdis : disburse_funds s1 now k with ⟨out, s2⟩
      have hw2 : VaultWF s2 := by
        have := vaultWF_disburse s1 now k hw1
        rwa [hdis] at this
      cases out with
      | failure => exact hw2
      | attributeError => exact hw2
      | ok t =>
        cases hl2 : lookupLoan s2 k with
        | none => exact hw2
        | some loan => exact hw2

theorem vaultWF_step (s : SystemState) (op : Op) (hw : VaultWF s) :
    VaultWF (step s op) := by
  cases op with
  | create now w amt rate coll price ltv days =>
      exact vaultWF_create s now w amt rate coll price ltv days hw
  | deposit now k amt price => exact vaultWF_deposit s now k amt price hw
  | disburse now k => exact vaultWF_disburse s now k hw
  | complete now k amt price => exact vaultWF_complete s now k amt price hw
  | repay now k amt addr => exact vaultWF_repay s now k amt addr hw

end Approval

namespace Approval

theorem deposit_collateral_noloan (s : SystemState) (now : ℤ) (k : ℕ)
    (amt price : ℚ) (hl : lookupLoan s k = none) :
    deposit_collateral s now k amt price = (none, s) := by
  simp only [deposit_collateral, hl]

theorem deposit_collateral_mismatch (s : SystemState) (now : ℤ) (k : ℕ)
    (amt price : ℚ) (loan : LoanAccount) (hl : lookupLoan s k = some loan)
    (hne : amt ≠ loan.collateral_amount_exen) :
    deposit_collateral s now k amt price = (none, s) := by
  simp only [deposit_collateral, hl, if_pos hne]

theorem deposit_collateral_success (s : SystemState) (now : ℤ) (k : ℕ)
    (amt price : ℚ) (loan : LoanAccount) (hl : lookupLoan s k = some loan)
    (hamt : amt = loan.collateral_amount_exen) :
    deposit_collateral s now k amt price =
      (some (newDeposit loan now s.transaction_counter amt price),
       { s with
         transaction_counter := s.transaction_counter + 1
         escrow_vault := { s.escrow_vault with
           deposits := dictInsert s.transaction_counter
             (newDeposit loan now s.transaction_counter amt price)
             s.escrow_vault.deposits
           total_collateral_locked :=
             s.escrow_vault.total_collateral_locked + amt * price
           status := EscrowStatus.locked }
         loan_accounts := dictInsert k
           { loan with
               collateral_deposit := some s.transaction_counter
               status := TransactionStatus.collateral_locked } s.loan_accounts
         collateral_deposits :=
           s.collateral_deposits ++ [s.transaction_counter] }) := by
  have hne : ¬(amt ≠ loan.collateral_amount_exen) := fun h => h hamt
  simp only [deposit_collateral, hl, if_neg hne]
  rfl

theorem disburse_funds_noloan (s : SystemState) (now : ℤ) (k : ℕ)
    (hl : lookupLoan s k = none) :
    disburse_funds s now k = (DisburseOutcome.failure, s) := by
  simp only [disburse_funds, hl]

theorem disburse_funds_wrong_status (s : SystemState) (now : ℤ) (k : ℕ)
    (loan : LoanAccount) (hl : lookupLoan s k = some loan)
    (hst : loan.status ≠ TransactionStatus.collateral_locked) :
    disburse_funds s now k = (DisburseOutcome.failure, s) := by
  simp only [disburse_funds, hl, if_pos hst]

theorem disburse_funds_insufficient (s : SystemState) (now : ℤ) (k : ℕ)
    (loan : LoanAccount) (hl : lookupLoan s k = some loan)
    (hst : loan.status = TransactionStatus.collateral_locked)
    (hpool : s.lending_pool_balance < loan.loan_amount_usd) :
    disburse_funds s now k = (DisburseOutcome.failure, s) := by
  have hst' : ¬(loan.status ≠ TransactionStatus.collateral_locked) :=
    fun h => h hst
  simp only [disburse_funds, hl, if_neg hst', if_pos hpool]

theorem disburse_funds_raises (s : SystemState) (now : ℤ) (k : ℕ)
    (loan : LoanAccount) (hl : lookupLoan s k = some loan)
    (hst : loan.status = TransactionStatus.collateral_locked)
    (hpool : loan.loan_amount_usd ≤ s.lending_pool_balance) :
    disburse_funds s now k =
      (DisburseOutcome.attributeError,
       { s with transaction_counter := s.transaction_counter + 1 }) := by
  have hst' : ¬(loan.status ≠ TransactionStatus.collateral_locked) :=
    fun h => h hst
  simp only [disburse_funds, hl, if_neg hst', if_neg (not_lt.mpr hpool)]

theorem inv_create (s : SystemState) (now : ℤ) (w : String)
    (amt rate coll price ltv : ℚ) (days : ℤ) (hi : EscrowInvariant s) :
    EscrowInvariant (create_loan_account s now w amt rate coll price ltv days).2 :=
  hi

theorem inv_deposit (s : SystemState) (now : ℤ) (k : ℕ) (amt price : ℚ)
    (hw : VaultWF s) (hi : EscrowInvariant s) :
    EscrowInvariant (deposit_collateral s now k amt price).2 := by
  cases hl : lookupLoan s k with
  | none => rw [deposit_collateral_noloan s now k amt price hl]; exact hi
  | some loan =>
    by_cases hamt : amt = loan.collateral_amount_exen
    · rw [deposit_collateral_success s now k amt price loan hl hamt]
      have hfresh : dictLookup s.transaction_counter s.escrow_vault.deposits = none :=
        dictLookup_eq_none_of_lt _ _ hw
      show s.escrow_vault.total_collateral_locked + amt * price =
        lockedSum (dictInsert s.transaction_counter
          (newDeposit loan now s.transaction_counter amt price)
          s.escrow_vault.deposits)
      rw [lockedSum_dictInsert_none _ _ _ hfresh, hi]
      simp [lockedVal, newDeposit]
    · rw [deposit_collateral_mismatch s now k amt price loan hl hamt]; exact hi

theorem inv_disburse (s : SystemState) (now : ℤ) (k : ℕ)
    (hi : EscrowInvariant s) : EscrowInvariant (disburse_funds s now k).2 := by
  cases hl : lookupLoan s k with
  | none => rw [disburse_funds_noloan s now k hl]; exact hi
  | some loan =>
    by_cases hst : loan.status = TransactionStatus.collateral_locked
    · by_cases hpool : s.lending_pool_balance < loan.loan_amount_usd
      · rw [disburse_funds_insufficient s now k loan hl hst hpool]; exact hi
      · rw [disburse_funds_raises s now k loan hl hst (not_lt.mp hpool)]
        exact hi
    · rw [disburse_funds_wrong_status s now k loan hl hst]; exact hi

theorem inv_release (s : SystemState) (linked : Option ℕ)
    (hi : EscrowInvariant s)
    (hcond : ∀ dk dep, linked = some dk → lookupDeposit s dk = some dep →
      dep.status = EscrowStatus.locked) :
    EscrowInvariant (releaseCollateral s linked) := by
  cases linked with
  | none => rw [releaseCollateral_none]; exact hi
  | some dk =>
    cases hdep : lookupDeposit s dk with
    | none => rw [releaseCollateral_some_none s dk hdep]; exact hi
    | some dep =>
      rw [releaseCollateral_some_some s dk dep hdep]
      have hlocked : dep.status = EscrowStatus.locked := hcond dk dep rfl hdep
      show s.escrow_vault.total_collateral_locked - dep.collateral_value_usd =
        lockedSum (dictInsert dk { dep with status := EscrowStatus.released }
          s.escrow_vault.deposits)
      rw [lockedSum_dictInsert_some _ _ _ _ hdep, hi]
      simp [lockedVal, hlocked]

theorem goodRepay_locked (s : SystemState) (now : ℤ) (k : ℕ) (amt : ℚ)
    (loan : LoanAccount) (hl : lookupLoan s k = some loan)
    (hge : repayOwed loan now ≤ amt) (hg : goodRepay s now k amt = true)
    (dk : ℕ) (dep : CollateralDeposit) (hcd : loan.collateral_deposit = some dk)
    (hdep : lookupDeposit s dk = some dep) :
    dep.status = EscrowStatus.locked := by
  have hlt : ¬(amt < loan.loan_amount_usd +
      loan.loan_amount_usd * (loan.interest_rate / 100) *
        (((now - loan.origination_timestamp : ℤ) : ℚ) / 365)) :=
    not_lt.mpr hge
  simp only [goodRepay, hl, if_neg hlt, hcd, hdep, decide_eq_true_eq] at hg
  exact hg

theorem inv_repay (s : SystemState) (now : ℤ) (k : ℕ) (amt : ℚ)
    (addr : String) (hi : EscrowInvariant s)
    (hg : goodRepay s now k amt = true) :
    EscrowInvariant (process_repayment s now k amt addr).2 := by
  cases hl : lookupLoan s k with
  | none => rw [process_repayment_none s now k amt addr hl]; exact hi
  | some loan =>
    by_cases hlt : amt < repayOwed loan now
    · rw [process_repayment_low s now k amt addr loan hl hlt]; exact hi
    · have hge := not_lt.mp hlt
      rw [process_repayment_success s now k amt addr loan hl hge]
      have hi1 : EscrowInvariant (repayState s now k amt loan) := hi
      have hcond : ∀ dk dep, loan.collateral_deposit = some dk →
          lookupDeposit (repayState s now k amt loan) dk = some dep →
          dep.status = EscrowStatus.locked := by
        intro dk dep hcd hdep
        exact goodRepay_locked s now k amt loan hl hge hg dk dep hcd hdep
      exact inv_release _ loan.collateral_deposit hi1 hcond

theorem inv_complete (s : SystemState) (now : ℤ) (k : ℕ) (amt price : ℚ)
    (hw : VaultWF s) (hi : EscrowInvariant s) :
    EscrowInvariant (complete_loan_setup s now k amt price).2 := by
  unfold complete_loan_setup
  rcases hdep : deposit_collateral s now k amt price with ⟨dres, s1⟩
  have hi1 : EscrowInvariant s1 := by
    have := inv_deposit s now k amt price hw hi
    rwa [hdep] at this
  cases dres with
  | none => exact hi1
  | some d =>
    by_cases hh : ¬(verify_collateral_health s1 k price).1
    · simpa [hh] using hi1
    · simp only [if_neg hh]
      rcases hdis : disburse_funds s1 now k with ⟨out, s2⟩
      have hi2 : EscrowInvariant s2 := by
        have := inv_disburse s1 now k hi1
        rwa [hdis] at this
      cases out with
      | failure => exact hi2
      | attributeError => exact hi2
      | ok t =>
        cases hl2 : lookupLoan s2 k with
        | none => exact hi2
        | some loan => exact hi2

theorem inv_step (s : SystemState) (op : Op) (hw : VaultWF s)
    (hi : EscrowInvariant s) (hg : goodOp s op = true) :
    EscrowInvariant (step s op) := by
  cases op with
  | create now w amt rate coll price ltv days =>
      exact inv_create s now w amt rate coll price ltv days hi
  | deposit now k amt price => exact inv_deposit s now k amt price hw hi
  | disburse now k => exact inv_disburse s now k hi
  | complete now k amt price => exact inv_complete s now k amt price hw hi
  | repay now k amt addr =>
      exact inv_repay s now k amt addr hi (by simpa [goodOp] using hg)

theorem inv_run (ops : List Op) : ∀ s : SystemState, VaultWF s →
    EscrowInvariant s → goodTrace s ops = true →
    EscrowInvariant (run s ops) := by
  induction ops with
  | nil => intro s _ hi _; exact hi
  | cons op rest ih =>
    intro s hw hi hg
    simp only [goodTrace, Bool.and_eq_true] at hg
    exact ih (step s op) (vaultWF_step s op hw) (inv_step s op hw hi hg.1) hg.2

end Approval

namespace Approval

theorem releaseCollateral_loans (s : SystemState) (linked : Option ℕ) :
    (releaseCollateral s linked).loan_accounts = s.loan_accounts := by
  cases linked with
  | none => rfl
  | some dk =>
    cases hdep : lookupDeposit s dk with
    | none => rw [releaseCollateral_some_none s dk hdep]
    | some dep => rw [releaseCollateral_some_some s dk dep hdep]

theorem releaseCollateral_pool (s : SystemState) (linked : Option ℕ) :
    (releaseCollateral s linked).lending_pool_balance =
      s.lending_pool_balance := by
  cases linked with
  | none => rfl
  | some dk =>
    cases hdep : lookupDeposit s dk with
    | none => rw [releaseCollateral_some_none s dk hdep]
    | some dep => rw [releaseCollateral_some_some s dk dep hdep]

theorem repay_preserves_status (s : SystemState) (now : ℤ) (k : ℕ) (amt : ℚ)
    (addr : String) (q : ℕ) :
    (lookupLoan (process_repayment s now k amt addr).2 q).map
        LoanAccount.status =
      (lookupLoan s q).map LoanAccount.status := by
  cases hl : lookupLoan s k with
  | none => rw [process_repayment_none s now k amt addr hl]
  | some loan =>
    by_cases hlt : amt < repayOwed loan now
    · rw [process_repayment_low s now k amt addr loan hl hlt]
    · rw [process_repayment_success s now k amt addr loan hl (not_lt.mp hlt)]
      have hloans : (releaseCollateral (repayState s now k amt loan)
          loan.collateral_deposit).loan_accounts =
          dictInsert k (repaidLoan loan now amt) s.loan_accounts :=
        releaseCollateral_loans _ _
      show (dictLookup q (releaseCollateral (repayState s now k amt loan)
          loan.collateral_deposit).loan_accounts).map LoanAccount.status = _
      rw [hloans, dictLookup_dictInsert]
      by_cases hq : q = k
      · subst hq
        rw [if_pos rfl]
        show some (repaidLoan loan now amt).status = _
        rw [show lookupLoan s q = some loan from hl]
        rfl
      · rw [if_neg hq]
        rfl

theorem disburse_pool_unchanged (s : SystemState) (now : ℤ) (k : ℕ) :
    (disburse_funds s now k).2.lending_pool_balance =
      s.lending_pool_balance := by
  cases hl : lookupLoan s k with
  | none => rw [disburse_funds_noloan s now k hl]
  | some loan =>
    by_cases hst : loan.status = TransactionStatus.collateral_locked
    · by_cases hpool : s.lending_pool_balance < loan.loan_amount_usd
      · rw [disburse_funds_insufficient s now k loan hl hst hpool]
      · rw [disburse_funds_raises s now k loan hl hst (not_lt.mp hpool)]
    · rw [disburse_funds_wrong_status s now k loan hl hst]

theorem disburse_not_ok (s : SystemState) (now : ℤ) (k : ℕ)
    (t : FundsTransfer) : (disburse_funds s now k).1 ≠ DisburseOutcome.ok t := by
  cases hl : lookupLoan s k with
  | none => rw [disburse_funds_noloan s now k hl]; simp
  | some loan =>
    by_cases hst : loan.status = TransactionStatus.collateral_locked
    · by_cases hpool : s.lending_pool_balance < loan.loan_amount_usd
      · rw [disburse_funds_insufficient s now k loan hl hst hpool]; simp
      · rw [disburse_funds_raises s now k loan hl hst (not_lt.mp hpool)]; simp
    · rw [disburse_funds_wrong_status s now k loan hl hst]; simp

theorem statusOK_create (s : SystemState) (now : ℤ) (w : String)
    (amt rate coll price ltv : ℚ) (days : ℤ)
    (h : ∀ q loan, lookupLoan s q = some loan →
      loan.status = TransactionStatus.pending ∨
      loan.status = TransactionStatus.collateral_locked) :
    ∀ q loan,
      lookupLoan (create_loan_account s now w amt rate coll price ltv days).2 q =
        some loan →
      loan.status = TransactionStatus.pending ∨
      loan.status = TransactionStatus.collateral_locked := by
  intro q loan hq
  simp only [create_loan_account, lookupLoan] at hq
  rw [dictLookup_dictInsert] at hq
  by_cases hqe : q = s.loan_counter + 1
  · rw [if_pos hqe] at hq
    cases hq
    exact Or.inl rfl
  · rw [if_neg hqe] at hq
    exact h q loan hq

theorem statusOK_deposit (s : SystemState) (now : ℤ) (k : ℕ) (amt price : ℚ)
    (h : ∀ q loan, lookupLoan s q = some loan →
      loan.status = TransactionStatus.pending ∨
      loan.status = TransactionStatus.collateral_locked) :
    ∀ q loan,
      lookupLoan (deposit_collateral s now k amt price).2 q = some loan →
      loan.status = TransactionStatus.pending ∨
      loan.status = TransactionStatus.collateral_locked := by
  intro q loan hq
  cases hl : lookupLoan s k with
  | none => rw [deposit_collateral_noloan s now k amt price hl] at hq
            exact h q loan hq
  | some loan0 =>
    by_cases hamt : amt = loan0.collateral_amount_exen
    · rw [deposit_collateral_success s now k amt price loan0 hl hamt] at hq
      have hq' : dictLookup q (dictInsert k
          { loan0 with
              collateral_deposit := some s.transaction_counter
              status := TransactionStatus.collateral_locked }
          s.loan_accounts) = some loan := hq
      rw [dictLookup_dictInsert] at hq'
      by_cases hqe : q = k
      · rw [if_pos hqe] at hq'
        cases hq'
        exact Or.inr rfl
      · rw [if_neg hqe] at hq'
        exact h q loan hq'
    · rw [deposit_collateral_mismatch s now k amt price loan0 hl hamt] at hq
      exact h q loan hq

theorem statusOK_disburse (s : SystemState) (now : ℤ) (k : ℕ)
    (h : ∀ q loan, lookupLoan s q = some loan →
      loan.status = TransactionStatus.pending ∨
      loan.status = TransactionStatus.collateral_locked) :
    ∀ q loan, lookupLoan (disburse_funds s now k).2 q = some loan →
      loan.status = TransactionStatus.pending ∨
      loan.status = TransactionStatus.collateral_locked := by
  intro q loan hq
  cases hl : lookupLoan s k with
  | none => rw [disburse_funds_noloan s now k hl] at hq; exact h q loan hq
  | some loan0 =>
    by_cases hst : loan0.status = TransactionStatus.collateral_locked
    · by_cases hpool : s.lending_pool_balance < loan0.loan_amount_usd
      · rw [disburse_funds_insufficient s now k loan0 hl hst hpool] at hq
        exact h q loan hq
      · rw [disburse_funds_raises s now k loan0 hl hst (not_lt.mp hpool)] at hq
        exact h q loan hq
    · rw [disburse_funds_wrong_status s now k loan0 hl hst] at hq
      exact h q loan hq

theorem statusOK_repay (s : SystemState) (now : ℤ) (k : ℕ) (amt : ℚ)
    (addr : String)
    (h : ∀ q loan, lookupLoan s q = some loan →
      loan.status = TransactionStatus.pending ∨
      loan.status = TransactionStatus.collateral_locked) :
    ∀ q loan, lookupLoan (process_repayment s now k amt addr).2 q = some loan →
      loan.status = TransactionStatus.pending ∨
      loan.status = TransactionStatus.collateral_locked := by
  intro q loan hq
  have hst := repay_preserves_status s now k amt addr q
  rw [hq] at hst
  cases hl2 : lookupLoan s q with
  | none => rw [hl2] at hst; simp at hst
  | some loan2 =>
    rw [hl2] at hst
    have : loan.status = loan2.status := by simpa using hst
    rw [this]
    exact h q loan2 hl2

theorem statusOK_complete (s : SystemState) (now : ℤ) (k : ℕ)
    (amt price : ℚ)
    (h : ∀ q loan, lookupLoan s q = some loan →
      loan.status = TransactionStatus.pending ∨
      loan.status = TransactionStatus.collateral_locked) :
    ∀ q loan, lookupLoan (complete_loan_setup s now k amt price).2 q = some loan →
      loan.status = TransactionStatus.pending ∨
      loan.status = TransactionStatus.collateral_locked := by
  intro q loan hq
  unfold complete_loan_setup at hq
  rcases hdep : deposit_collateral s now k amt price with ⟨dres, s1⟩
  rw [hdep] at hq
  have h1 := statusOK_deposit s now k amt price h
  rw [hdep] at h1
  cases dres with
  | none => exact h1 q loan hq
  | some d =>
    by_cases hh : ¬(verify_collateral_health s1 k price).1
    · simp only [if_pos hh] at hq
      exact h1 q loan hq
    · simp only [if_neg hh] at hq
      rcases hdis : disburse_funds s1 now k with ⟨out, s2⟩
      rw [hdis] at hq
      have h2 := statusOK_disburse s1 now k h1
      rw [hdis] at h2
      cases out with
      | failure => exact h2 q loan hq
      | attributeError => exact h2 q loan hq
      | ok t =>
        exfalso
        have := disburse_not_ok s1 now k t
        rw [hdis] at this
        exact this rfl

theorem statusOK_step (s : SystemState) (op : Op)
    (h : ∀ q loan, lookupLoan s q = some loan →
      loan.status = TransactionStatus.pending ∨
      loan.status = TransactionStatus.collateral_locked) :
    ∀ q loan, lookupLoan (step s op) q = some loan →
      loan.status = TransactionStatus.pending ∨
      loan.status = TransactionStatus.collateral_locked := by
  cases op with
  | create now w amt rate coll price ltv days =>
      exact statusOK_create s now w amt rate coll price ltv days h
  | deposit now k amt price => exact statusOK_deposit s now k amt price h
  | disburse now k => exact statusOK_disburse s now k h
  | complete now k amt price => exact statusOK_complete s now k amt price h
  | repay now k amt addr => exact statusOK_repay s now k amt addr h

theorem statusOK_run (ops : List Op) : ∀ s : SystemState,
    (∀ q loan, lookupLoan s q = some loan →
      loan.status = TransactionStatus.pending ∨
      loan.status = TransactionStatus.collateral_locked) →
    ∀ q loan, lookupLoan (run s ops) q = some loan →
      loan.status = TransactionStatus.pending ∨
      loan.status = TransactionStatus.collateral_locked := by
  induction ops with
  | nil => intro s h; exact h
  | cons op rest ih => intro s h; exact ih (step s op) (statusOK_step s op h)

theorem repay_success_effects (s : SystemState) (now : ℤ) (k : ℕ) (amt : ℚ)
    (addr : String) (loan : LoanAccount) (dk : ℕ) (dep : CollateralDeposit)
    (hl : lookupLoan s k = some loan) (hcd : loan.collateral_deposit = some dk)
    (hdep : lookupDeposit s dk = some dep) (hge : repayOwed loan now ≤ amt) :
    (process_repayment s now k amt addr).1 = true ∧
    lookupDeposit (process_repayment s now k amt addr).2 dk =
      some { dep with status := EscrowStatus.released } ∧
    (process_repayment s now k amt addr).2.escrow_vault.total_collateral_locked =
      s.escrow_vault.total_collateral_locked - dep.collateral_value_usd ∧
    (process_repayment s now k amt addr).2.lending_pool_balance =
      s.lending_pool_balance + amt := by
  rw [process_repayment_success s now k amt addr loan hl hge, hcd]
  have hdep1 : lookupDeposit (repayState s now k amt loan) dk = some dep := hdep
  rw [releaseCollateral_some_some _ dk dep hdep1]
  refine ⟨rfl, ?_, rfl, rfl⟩
  show dictLookup dk (dictInsert dk
    { dep with status := EscrowStatus.released }
    (repayState s now k amt loan).escrow_vault.deposits) = _
  rw [dictLookup_dictInsert, if_pos rfl]

end Approval

/-! ### Claim theorems -/

/-- **C1** (counterexample).  In `stateLocked` loan 1 is already
CollateralLocked (not Pending), yet `deposit_collateral` with the matching
amount succeeds and changes the escrow vault (running total 100 → 200): an
out-of-order `deposit_collateral` neither returns an error nor leaves the
vault unchanged. -/
theorem c1_counterexample :
    Approval.lookupLoan Fixtures.stateLocked 1 = some Fixtures.loanLocked ∧
    Fixtures.loanLocked.status ≠ Approval.TransactionStatus.pending ∧
    ((Approval.deposit_collateral Fixtures.stateLocked 0 1 100 1).1).isSome =
      true ∧
    Fixtures.stateLocked.escrow_vault.total_collateral_locked = 100 ∧
    (Approval.deposit_collateral Fixtures.stateLocked 0 1 100
        1).2.escrow_vault.total_collateral_locked = 200 := by
  refine ⟨?_, by norm_num [Fixtures.loanLocked]; decide, ?_, ?_, ?_⟩ <;>
    norm_num [Approval.run, Approval.step, Approval.initState,
    Approval.create_loan_account, Approval.deposit_collateral,
    Approval.disburse_funds, Approval.process_repayment,
    Approval.complete_loan_setup, Approval.verify_collateral_health,
    Approval.releaseCollateral, Approval.repayState, Approval.repaidLoan,
    Approval.repayInterest, Approval.repayOwed, Approval.newDeposit,
    Approval.lookupLoan, Approval.lookupDeposit, dictInsert, dictLookup,
      Fixtures.stateLocked, Fixtures.opsSetup, Fixtures.loanLocked,
      show "LOAN_" ++ toString 1 = "LOAN_1" from rfl]

/-- **C1** (amended).  The status machine as the code implements it:
(1) `disburse_funds` on a loan not in CollateralLocked fails and leaves the
state unchanged; (2) `deposit_collateral` checks only existence and the
exact amount — from *any* status it succeeds and moves the loan to
CollateralLocked (no Pending guard); (3) `process_repayment` never changes
any loan's status (Completed is assigned only by `complete_loan_setup`,
whose disbursement step always raises first); (4) hence every loan reachable
from the initial state is Pending or CollateralLocked. -/
theorem c1_status_machine_amended :
    (∀ (s : Approval.SystemState) (now : ℤ) (k : ℕ)
       (loan : Approval.LoanAccount),
       Approval.lookupLoan s k = some loan →
       loan.status ≠ Approval.TransactionStatus.collateral_locked →
       Approval.disburse_funds s now k = (Approval.DisburseOutcome.failure, s)) ∧
    (∀ (s : Approval.SystemState) (now : ℤ) (k : ℕ) (amt price : ℚ)
       (loan : Approval.LoanAccount),
       Approval.lookupLoan s k = some loan →
       amt = loan.collateral_amount_exen →
       ((Approval.deposit_collateral s now k amt price).1).isSome = true ∧
       Approval.lookupLoan (Approval.deposit_collateral s now k amt price).2 k =
         some { loan with
                  collateral_deposit := some s.transaction_counter
                  status := Approval.TransactionStatus.collateral_locked }) ∧
    (∀ (s : Approval.SystemState) (now : ℤ) (k : ℕ) (amt : ℚ) (addr : String)
       (q : ℕ),
       (Approval.lookupLoan (Approval.process_repayment s now k amt addr).2
           q).map Approval.LoanAccount.status =
         (Approval.lookupLoan s q).map Approval.LoanAccount.status) ∧
    (∀ (ops : List Approval.Op) (k : ℕ) (loan : Approval.LoanAccount),
       Approval.lookupLoan (Approval.run Approval.initState ops) k = some loan →
       loan.status = Approval.TransactionStatus.pending ∨
       loan.status = Approval.TransactionStatus.collateral_locked) := by
  refine ⟨?_, ?_, ?_, ?_⟩
  · intro s now k loan hl hst
    exact Approval.disburse_funds_wrong_status s now k loan hl hst
  · intro s now k amt price loan hl hamt
    rw [Approval.deposit_collateral_success s now k amt price loan hl hamt]
    constructor
    · rfl
    · show dictLookup k (dictInsert k _ s.loan_accounts) = _
      rw [dictLookup_dictInsert, if_pos rfl]
  · intro s now k amt addr q
    exact Approval.repay_preserves_status s now k amt addr q
  · intro ops k loan h
    refine Approval.statusOK_run ops Approval.initState ?_ k loan h
    intro q loan0 hq
    simp [Approval.lookupLoan, Approval.initState, dictLookup] at hq

/-- **C1** (witness): the four amended conjuncts instantiated — disbursing a
Pending loan fails and changes nothing; a deposit on the CollateralLocked
loan 1 succeeds and (re)locks it; a repayment leaves loan 1's status
untouched; and the loan stored in `stateLocked` is on the Pending/Locked
path. -/
theorem c1_witness :
    Approval.disburse_funds Fixtures.statePending 0 1 =
      (Approval.DisburseOutcome.failure, Fixtures.statePending) ∧
    ((Approval.deposit_collateral Fixtures.stateLocked 0 1 100 1).1).isSome =
      true ∧
    (Approval.lookupLoan
        (Approval.process_repayment Fixtures.stateLocked 0 1 100
          "BorrowerWallet1").2 1).map Approval.LoanAccount.status =
      (Approval.lookupLoan Fixtures.stateLocked 1).map
        Approval.LoanAccount.status ∧
    (Fixtures.loanLocked.status = Approval.TransactionStatus.pending ∨
     Fixtures.loanLocked.status =
       Approval.TransactionStatus.collateral_locked) := by
  refine ⟨?_, ?_, ?_, ?_⟩
  · exact c1_status_machine_amended.1 Fixtures.statePending 0 1
      Fixtures.loanPending
      (by norm_num [Approval.run, Approval.step, Approval.initState,
    Approval.create_loan_account, Approval.deposit_collateral,
    Approval.disburse_funds, Approval.process_repayment,
    Approval.complete_loan_setup, Approval.verify_collateral_health,
    Approval.releaseCollateral, Approval.repayState, Approval.repaidLoan,
    Approval.repayInterest, Approval.repayOwed, Approval.newDeposit,
    Approval.lookupLoan, Approval.lookupDeposit, dictInsert, dictLookup,
        Fixtures.statePending, Fixtures.loanPending, Fixtures.loanLocked,
        show "LOAN_" ++ toString 1 = "LOAN_1" from rfl])
      (by norm_num [Fixtures.loanPending, Fixtures.loanLocked]; decide)
  · exact (c1_status_machine_amended.2.1 Fixtures.stateLocked 0 1 100 1
      Fixtures.loanLocked
      (by norm_num [Approval.run, Approval.step, Approval.initState,
    Approval.create_loan_account, Approval.deposit_collateral,
    Approval.disburse_funds, Approval.process_repayment,
    Approval.complete_loan_setup, Approval.verify_collateral_health,
    Approval.releaseCollateral, Approval.repayState, Approval.repaidLoan,
    Approval.repayInterest, Approval.repayOwed, Approval.newDeposit,
    Approval.lookupLoan, Approval.lookupDeposit, dictInsert, dictLookup,
        Fixtures.stateLocked, Fixtures.opsSetup, Fixtures.loanLocked,
        show "LOAN_" ++ toString 1 = "LOAN_1" from rfl])
      (by norm_num [Fixtures.loanLocked])).1
  · exact c1_status_machine_amended.2.2.1 Fixtures.stateLocked 0 1 100
      "BorrowerWallet1" 1
  · exact c1_status_machine_amended.2.2.2 Fixtures.opsSetup 1
      Fixtures.loanLocked
      (by norm_num [Approval.run, Approval.step, Approval.initState,
    Approval.create_loan_account, Approval.deposit_collateral,
    Approval.disburse_funds, Approval.process_repayment,
    Approval.complete_loan_setup, Approval.verify_collateral_health,
    Approval.releaseCollateral, Approval.repayState, Approval.repaidLoan,
    Approval.repayInterest, Approval.repayOwed, Approval.newDeposit,
    Approval.lookupLoan, Approval.lookupDeposit, dictInsert, dictLookup,
        Fixtures.stateLocked, Fixtures.opsSetup, Fixtures.loanLocked,
        show "LOAN_" ++ toString 1 = "LOAN_1" from rfl])

/-- **C2** (counterexample).  After create → deposit → repay → repay on
loan 1 the escrow running total is -100 while the locked-deposit sum is 0:
the invariant fails right after a mutating operation (the second
repayment). -/
theorem c2_counterexample :
    ¬ Approval.EscrowInvariant
        (Approval.run Approval.initState Fixtures.opsDouble) := by
  intro hinv
  have h1 : (Approval.run Approval.initState
      Fixtures.opsDouble).escrow_vault.total_collateral_locked = -100 := by
    norm_num [Approval.run, Approval.step, Approval.initState,
      Approval.create_loan_account, Approval.deposit_collateral,
      Approval.process_repayment, Approval.releaseCollateral,
      Approval.repayState, Approval.repaidLoan, Approval.repayInterest,
      Approval.lookupLoan, Approval.lookupDeposit, dictInsert, dictLookup,
      Fixtures.opsDouble, Fixtures.opsSetup]
  have h2 : Approval.lockedSum (Approval.run Approval.initState
      Fixtures.opsDouble).escrow_vault.deposits = 0 := by
    have hdep : (Approval.run Approval.initState
        Fixtures.opsDouble).escrow_vault.deposits =
        [(0, { Fixtures.depLocked with
                 status := Approval.EscrowStatus.released })] := by
      norm_num [Approval.run, Approval.step, Approval.initState,
        Approval.create_loan_account, Approval.deposit_collateral,
        Approval.process_repayment, Approval.releaseCollateral,
        Approval.repayState, Approval.repaidLoan, Approval.repayInterest,
        Approval.lookupLoan, Approval.lookupDeposit, dictInsert, dictLookup,
        Approval.newDeposit, Fixtures.opsDouble, Fixtures.opsSetup,
        Fixtures.depLocked,
        show "LOAN_" ++ toString 1 = "LOAN_1" from rfl,
        show "DEPOSIT_" ++ toString 0 = "DEPOSIT_0" from rfl]
    rw [hdep]
    simp [Approval.lockedSum, Fixtures.depLocked]
  unfold Approval.EscrowInvariant at hinv
  rw [h1, h2] at hinv
  norm_num at hinv

/-- **C2** (amended).  The escrow-vault invariant — running total = sum of
USD values of deposits currently Locked — holds after every mutating
operation along any trace from the initial state in which each successful
`process_repayment` runs while the target loan's linked deposit is still
Locked (equivalently, no loan is successfully repaid twice without an
intervening re-deposit). -/
theorem c2_escrow_total_invariant_amended (ops : List Approval.Op)
    (h : Approval.goodTrace Approval.initState ops = true) :
    Approval.EscrowInvariant (Approval.run Approval.initState ops) :=
  Approval.inv_run ops Approval.initState
    (fun p hp => absurd hp (List.not_mem_nil p)) rfl h

/-- **C2** (witness): the trace create → deposit → repay is orderly, and the
invariant indeed holds in its final state. -/
theorem c2_witness :
    Approval.goodTrace Approval.initState Fixtures.opsGood = true ∧
    Approval.EscrowInvariant
      (Approval.run Approval.initState Fixtures.opsGood) := by
  have hg : Approval.goodTrace Approval.initState Fixtures.opsGood = true := by
    norm_num [Approval.run, Approval.step, Approval.initState,
    Approval.create_loan_account, Approval.deposit_collateral,
    Approval.disburse_funds, Approval.process_repayment,
    Approval.complete_loan_setup, Approval.verify_collateral_health,
    Approval.releaseCollateral, Approval.repayState, Approval.repaidLoan,
    Approval.repayInterest, Approval.repayOwed, Approval.newDeposit,
    Approval.lookupLoan, Approval.lookupDeposit, dictInsert, dictLookup,
      Approval.goodTrace, Approval.goodOp, Approval.goodRepay,
      Fixtures.opsGood, Fixtures.opsSetup]
  exact ⟨hg, c2_escrow_total_invariant_amended Fixtures.opsGood hg⟩

/-- **C3** (code evaluated at the failing input).  For *every* loan in
CollateralLocked whose principal fits in the pool — the exact situation the
claim describes as the success path — `disburse_funds` terminates in the
`attributeError` outcome (`_generate_tx_hash` reads `transfer.timestamp`,
a field `FundsTransfer` does not define): no transfer or tx-hash is
produced, the pool is not decremented, the transfer log is untouched, and
the loan keeps its old record. -/
theorem c3_disburse_always_raises :
    ∀ (s : Approval.SystemState) (now : ℤ) (k : ℕ)
      (loan : Approval.LoanAccount),
      Approval.lookupLoan s k = some loan →
      loan.status = Approval.TransactionStatus.collateral_locked →
      loan.loan_amount_usd ≤ s.lending_pool_balance →
      (Approval.disburse_funds s now k).1 =
        Approval.DisburseOutcome.attributeError ∧
      (Approval.disburse_funds s now k).2.lending_pool_balance =
        s.lending_pool_balance ∧
      (Approval.disburse_funds s now k).2.fund_transfers = s.fund_transfers ∧
      Approval.lookupLoan (Approval.disburse_funds s now k).2 k = some loan := by
  intro s now k loan hl hst hpool
  rw [Approval.disburse_funds_raises s now k loan hl hst hpool]
  exact ⟨rfl, rfl, rfl, hl⟩

/-- **C3** (witness): the demo loan — 5000 USD, collateral locked, pool
100000 — hits the AttributeError outcome and nothing is disbursed. -/
theorem c3_witness :
    (Approval.disburse_funds Fixtures.stateDemo 0 1).1 =
      Approval.DisburseOutcome.attributeError ∧
    (Approval.disburse_funds Fixtures.stateDemo 0 1).2.lending_pool_balance =
      Fixtures.stateDemo.lending_pool_balance ∧
    (Approval.disburse_funds Fixtures.stateDemo 0 1).2.fund_transfers =
      Fixtures.stateDemo.fund_transfers ∧
    Approval.lookupLoan (Approval.disburse_funds Fixtures.stateDemo 0 1).2 1 =
      some Fixtures.loanDemo := by
  refine c3_disburse_always_raises Fixtures.stateDemo 0 1 Fixtures.loanDemo
    ?_ ?_ ?_
  · norm_num [Approval.run, Approval.step, Approval.initState,
      Approval.create_loan_account, Approval.deposit_collateral,
      Approval.lookupLoan, dictInsert, dictLookup,
      Fixtures.stateDemo, Fixtures.opsDemo, Fixtures.loanDemo,
      show "LOAN_" ++ toString 1 = "LOAN_1" from rfl]
  · norm_num [Fixtures.loanDemo]
  · norm_num [Approval.run, Approval.step, Approval.initState,
      Approval.create_loan_account, Approval.deposit_collateral,
      Approval.lookupLoan, dictInsert, dictLookup,
      Fixtures.stateDemo, Fixtures.opsDemo, Fixtures.loanDemo]

/-- **C4**: `disburse_funds` never drives the pool negative — (1) whenever
the pool balance is below the loan's principal the call fails and returns
the state entirely unchanged, and (2) a nonnegative pool stays nonnegative
across any `disburse_funds` call (the balance is in fact never changed by
it, since the success path raises before the decrement). -/
theorem c4_pool_never_negative :
    (∀ (s : Approval.SystemState) (now : ℤ) (k : ℕ)
       (loan : Approval.LoanAccount),
       Approval.lookupLoan s k = some loan →
       s.lending_pool_balance < loan.loan_amount_usd →
       Approval.disburse_funds s now k =
         (Approval.DisburseOutcome.failure, s)) ∧
    (∀ (s : Approval.SystemState) (now : ℤ) (k : ℕ),
       0 ≤ s.lending_pool_balance →
       0 ≤ (Approval.disburse_funds s now k).2.lending_pool_balance) := by
  constructor
  · intro s now k loan hl hpool
    by_cases hst : loan.status = Approval.TransactionStatus.collateral_locked
    · exact Approval.disburse_funds_insufficient s now k loan hl hst hpool
    · exact Approval.disburse_funds_wrong_status s now k loan hl hst
  · intro s now k h
    rw [Approval.disburse_pool_unchanged s now k]
    exact h

/-- **C4** (witness): the 200000 USD loan against the 100000 pool — the call
fails, the state is unchanged, and the pool stays nonnegative. -/
theorem c4_witness :
    Approval.disburse_funds Fixtures.stateLarge 0 1 =
      (Approval.DisburseOutcome.failure, Fixtures.stateLarge) ∧
    0 ≤ (Approval.disburse_funds Fixtures.stateLarge 0 1).2.lending_pool_balance := by
  constructor
  · refine c4_pool_never_negative.1 Fixtures.stateLarge 0 1 Fixtures.loanLarge
      ?_ ?_
    · norm_num [Approval.run, Approval.step, Approval.initState,
        Approval.create_loan_account, Approval.deposit_collateral,
        Approval.lookupLoan, dictInsert, dictLookup,
        Fixtures.stateLarge, Fixtures.opsLarge, Fixtures.loanLarge,
        show "LOAN_" ++ toString 1 = "LOAN_1" from rfl]
    · norm_num [Approval.run, Approval.step, Approval.initState,
        Approval.create_loan_account, Approval.deposit_collateral,
        Approval.lookupLoan, dictInsert, dictLookup,
        Fixtures.stateLarge, Fixtures.opsLarge, Fixtures.loanLarge]
  · refine c4_pool_never_negative.2 Fixtures.stateLarge 0 1 ?_
    norm_num [Approval.run, Approval.step, Approval.initState,
      Approval.create_loan_account, Approval.deposit_collateral,
      Approval.lookupLoan, dictInsert, dictLookup,
      Fixtures.stateLarge, Fixtures.opsLarge]

/-- **C6**: for a loan with a linked vault deposit, `process_repayment`
fails (returning the state unchanged) exactly when the amount is below
principal + accrued simple interest, and succeeds for any amount at least
that total, releasing the linked deposit, subtracting its USD value from
the escrow running total, and crediting the full amount to the pool. -/
theorem c6_repayment_threshold_and_effects :
    ∀ (s : Approval.SystemState) (now : ℤ) (k : ℕ) (amt : ℚ) (addr : String)
      (loan : Approval.LoanAccount) (dk : ℕ)
      (dep : Approval.CollateralDeposit),
      Approval.lookupLoan s k = some loan →
      loan.collateral_deposit = some dk →
      Approval.lookupDeposit s dk = some dep →
      ((amt < Approval.repayOwed loan now →
          Approval.process_repayment s now k amt addr = (false, s)) ∧
       (Approval.repayOwed loan now ≤ amt →
          (Approval.process_repayment s now k amt addr).1 = true ∧
          Approval.lookupDeposit (Approval.process_repayment s now k amt
              addr).2 dk =
            some { dep with status := Approval.EscrowStatus.released } ∧
          (Approval.process_repayment s now k amt
              addr).2.escrow_vault.total_collateral_locked =
            s.escrow_vault.total_collateral_locked - dep.collateral_value_usd ∧
          (Approval.process_repayment s now k amt addr).2.lending_pool_balance =
            s.lending_pool_balance + amt)) := by
  intro s now k amt addr loan dk dep hl hcd hdep
  constructor
  · intro hlt
    exact Approval.process_repayment_low s now k amt addr loan hl hlt
  · intro hge
    exact Approval.repay_success_effects s now k amt addr loan dk dep hl hcd
      hdep hge

/-- **C6** (witness): on the locked 100 USD loan at day 0 (zero interest),
repaying 99 — one unit short — fails and changes nothing, while repaying
exactly 100 succeeds, releases deposit 0, zeroes the escrow total and
credits the pool. -/
theorem c6_witness :
    Approval.process_repayment Fixtures.stateLocked 0 1 99 "BorrowerWallet1" =
      (false, Fixtures.stateLocked) ∧
    (Approval.process_repayment Fixtures.stateLocked 0 1 100
        "BorrowerWallet1").1 = true ∧
    Approval.lookupDeposit (Approval.process_repayment Fixtures.stateLocked 0
        1 100 "BorrowerWallet1").2 0 =
      some { Fixtures.depLocked with
               status := Approval.EscrowStatus.released } ∧
    (Approval.process_repayment Fixtures.stateLocked 0 1 100
        "BorrowerWallet1").2.escrow_vault.total_collateral_locked =
      Fixtures.stateLocked.escrow_vault.total_collateral_locked -
        Fixtures.depLocked.collateral_value_usd ∧
    (Approval.process_repayment Fixtures.stateLocked 0 1 100
        "BorrowerWallet1").2.lending_pool_balance =
      Fixtures.stateLocked.lending_pool_balance + 100 := by
  have hl : Approval.lookupLoan Fixtures.stateLocked 1 =
      some Fixtures.loanLocked := by
    norm_num [Approval.run, Approval.step, Approval.initState,
      Approval.create_loan_account, Approval.deposit_collateral,
      Approval.lookupLoan, dictInsert, dictLookup,
      Fixtures.stateLocked, Fixtures.opsSetup, Fixtures.loanLocked,
      show "LOAN_" ++ toString 1 = "LOAN_1" from rfl]
  have hdep : Approval.lookupDeposit Fixtures.stateLocked 0 =
      some Fixtures.depLocked := by
    norm_num [Approval.run, Approval.step, Approval.initState,
      Approval.create_loan_account, Approval.deposit_collateral,
      Approval.lookupDeposit, Approval.newDeposit, dictInsert, dictLookup,
      Fixtures.stateLocked, Fixtures.opsSetup, Fixtures.depLocked,
      show "LOAN_" ++ toString 1 = "LOAN_1" from rfl,
      show "DEPOSIT_" ++ toString 0 = "DEPOSIT_0" from rfl]
  have hcd : Fixtures.loanLocked.collateral_deposit = some 0 := rfl
  have h99 := c6_repayment_threshold_and_effects Fixtures.stateLocked 0 1 99
    "BorrowerWallet1" Fixtures.loanLocked 0 Fixtures.depLocked hl hcd hdep
  have h100 := c6_repayment_threshold_and_effects Fixtures.stateLocked 0 1 100
    "BorrowerWallet1" Fixtures.loanLocked 0 Fixtures.depLocked hl hcd hdep
  refine ⟨h99.1 ?_, h100.2 ?_⟩
  · norm_num [Approval.repayOwed, Approval.repayInterest, Fixtures.loanLocked]
  · norm_num [Approval.repayOwed, Approval.repayInterest, Fixtures.loanLocked]

/-- **C10**: `process_repayment` checks neither the loan's status nor the
linked deposit's escrow status — for *any* loan with a linked vault deposit
(whatever the two statuses) and any amount at least principal + accrued
interest, it succeeds, (re)marks the deposit Released, subtracts the
deposit's USD value from the escrow running total, and credits the amount
to the pool. -/
theorem c10_repayment_ignores_status :
    ∀ (s : Approval.SystemState) (now : ℤ) (k : ℕ) (amt : ℚ) (addr : String)
      (loan : Approval.LoanAccount) (dk : ℕ)
      (dep : Approval.CollateralDeposit),
      Approval.lookupLoan s k = some loan →
      loan.collateral_deposit = some dk →
      Approval.lookupDeposit s dk = some dep →
      Approval.repayOwed loan now ≤ amt →
      (Approval.process_repayment s now k amt addr).1 = true ∧
      Approval.lookupDeposit (Approval.process_repayment s now k amt addr).2
          dk = some { dep with status := Approval.EscrowStatus.released } ∧
      (Approval.process_repayment s now k amt
          addr).2.escrow_vault.total_collateral_locked =
        s.escrow_vault.total_collateral_locked - dep.collateral_value_usd ∧
      (Approval.process_repayment s now k amt addr).2.lending_pool_balance =
        s.lending_pool_balance + amt := by
  intro s now k amt addr loan dk dep hl hcd hdep hge
  exact Approval.repay_success_effects s now k amt addr loan dk dep hl hcd
    hdep hge

/-- **C10** (witness): repaying the *already repaid* loan 1 a second time —
its deposit is Released, the escrow total is 0 — succeeds again and drags
the escrow total from 0 down to -100 while crediting the pool again. -/
theorem c10_witness :
    (Approval.process_repayment Fixtures.stateRepaid 0 1 100
        "BorrowerWallet1").1 = true ∧
    Approval.lookupDeposit (Approval.process_repayment Fixtures.stateRepaid 0
        1 100 "BorrowerWallet1").2 0 =
      some { Fixtures.depReleased with
               status := Approval.EscrowStatus.released } ∧
    (Approval.process_repayment Fixtures.stateRepaid 0 1 100
        "BorrowerWallet1").2.escrow_vault.total_collateral_locked =
      Fixtures.stateRepaid.escrow_vault.total_collateral_locked -
        Fixtures.depReleased.collateral_value_usd ∧
    (Approval.process_repayment Fixtures.stateRepaid 0 1 100
        "BorrowerWallet1").2.lending_pool_balance =
      Fixtures.stateRepaid.lending_pool_balance + 100 := by
  have hl : Approval.lookupLoan Fixtures.stateRepaid 1 =
      some Fixtures.loanRepaid := by
    norm_num [Approval.run, Approval.step, Approval.initState,
      Approval.create_loan_account, Approval.deposit_collateral,
      Approval.process_repayment, Approval.releaseCollateral,
      Approval.repayState, Approval.repaidLoan, Approval.repayInterest,
      Approval.lookupLoan, Approval.lookupDeposit, dictInsert, dictLookup,
      Fixtures.stateRepaid, Fixtures.opsGood, Fixtures.opsSetup,
      Fixtures.loanRepaid, Fixtures.loanLocked,
      show "LOAN_" ++ toString 1 = "LOAN_1" from rfl]
  have hdep : Approval.lookupDeposit Fixtures.stateRepaid 0 =
      some Fixtures.depReleased := by
    norm_num [Approval.run, Approval.step, Approval.initState,
      Approval.create_loan_account, Approval.deposit_collateral,
      Approval.process_repayment, Approval.releaseCollateral,
      Approval.repayState, Approval.repaidLoan, Approval.repayInterest,
      Approval.lookupLoan, Approval.lookupDeposit, Approval.newDeposit,
      dictInsert, dictLookup,
      Fixtures.stateRepaid, Fixtures.opsGood, Fixtures.opsSetup,
      Fixtures.depReleased, Fixtures.depLocked,
      show "LOAN_" ++ toString 1 = "LOAN_1" from rfl,
      show "DEPOSIT_" ++ toString 0 = "DEPOSIT_0" from rfl]
  have hcd : Fixtures.loanRepaid.collateral_deposit = some 0 := rfl
  refine c10_repayment_ignores_status Fixtures.stateRepaid 0 1 100
    "BorrowerWallet1" Fixtures.loanRepaid 0 Fixtures.depReleased hl hcd hdep ?_
  norm_num [Approval.repayOwed, Approval.repayInterest, Fixtures.loanRepaid,
    Fixtures.loanLocked]

/-- **C5**: the preliminary gates of `make_decision` fire in fixed priority
order, each returning immediately: (1) credit score < 400 → Denied (with no
terms); (2) otherwise transaction count < 3 → PendingReview with the
manual-review flag — not Denied — regardless of the requested amount;
(3) otherwise amount > 500000 → Denied; (4) otherwise amount < 100 →
Denied. -/
theorem c5_gate_priority_order :
    ∀ (n : ℕ) (now : ℤ) (r : Decision.LoanRequest),
      (r.credit_score < 400 →
        (Decision.make_decision n now r).status =
          Decision.DecisionStatus.denied ∧
        (Decision.make_decision n now r).proposed_terms = none) ∧
      (400 ≤ r.credit_score → r.transaction_count < 3 →
        (Decision.make_decision n now r).status =
          Decision.DecisionStatus.pending_review ∧
        (Decision.make_decision n now r).manual_review_required = true ∧
        (Decision.make_decision n now r).status ≠
          Decision.DecisionStatus.denied) ∧
      (400 ≤ r.credit_score → 3 ≤ r.transaction_count →
       500000 < r.borrow_amount_usd →
        (Decision.make_decision n now r).status =
          Decision.DecisionStatus.denied) ∧
      (400 ≤ r.credit_score → 3 ≤ r.transaction_count →
       r.borrow_amount_usd ≤ 500000 → r.borrow_amount_usd < 100 →
        (Decision.make_decision n now r).status =
          Decision.DecisionStatus.denied) := by
  intro n now r
  refine ⟨?_, ?_, ?_, ?_⟩
  · intro h
    simp only [Decision.make_decision, Decision.min_credit_score]
    rw [if_pos h]
    exact ⟨rfl, rfl⟩
  · intro h1 h2
    simp only [Decision.make_decision, Decision.min_credit_score,
      Decision.min_transactions]
    rw [if_neg (not_lt.mpr h1), if_pos h2]
    refine ⟨rfl, rfl, ?_⟩
    intro h
    exact nomatch h
  · intro h1 h2 h3
    simp only [Decision.make_decision, Decision.min_credit_score,
      Decision.min_transactions, Decision.max_loan_amount_usd]
    rw [if_neg (not_lt.mpr h1), if_neg (not_lt.mpr h2), if_pos h3]
  · intro h1 h2 h3 h4
    simp only [Decision.make_decision, Decision.min_credit_score,
      Decision.min_transactions, Decision.max_loan_amount_usd,
      Decision.min_loan_amount_usd]
    rw [if_neg (not_lt.mpr h1), if_neg (not_lt.mpr h2),
      if_neg (not_lt.mpr h3), if_pos h4]

/-- **C5** (witness): the spec's own example — credit score 300 with one
transaction is Denied by gate 1, not PendingReview; a score-500 request with
one transaction is PendingReview with the manual flag; gates 3 and 4 deny
the 600000 and 50 USD requests. -/
theorem c5_witness :
    (Decision.make_decision 1 0 Fixtures.reqScoreGate).status =
      Decision.DecisionStatus.denied ∧
    (Decision.make_decision 2 0 Fixtures.reqHistoryGate).status =
      Decision.DecisionStatus.pending_review ∧
    (Decision.make_decision 2 0 Fixtures.reqHistoryGate).manual_review_required =
      true ∧
    (Decision.make_decision 3 0 Fixtures.reqMaxGate).status =
      Decision.DecisionStatus.denied ∧
    (Decision.make_decision 4 0 Fixtures.reqMinGate).status =
      Decision.DecisionStatus.denied := by
  have hg2 := (c5_gate_priority_order 2 0 Fixtures.reqHistoryGate).2.1
    (by norm_num [Fixtures.reqHistoryGate])
    (by norm_num [Fixtures.reqHistoryGate])
  refine ⟨?_, hg2.1, hg2.2.1, ?_, ?_⟩
  · exact ((c5_gate_priority_order 1 0 Fixtures.reqScoreGate).1
      (by norm_num [Fixtures.reqScoreGate, Fixtures.reqHistoryGate])).1
  · exact (c5_gate_priority_order 3 0 Fixtures.reqMaxGate).2.2.1
      (by norm_num [Fixtures.reqMaxGate, Fixtures.reqHistoryGate])
      (by norm_num [Fixtures.reqMaxGate, Fixtures.reqHistoryGate])
      (by norm_num [Fixtures.reqMaxGate, Fixtures.reqHistoryGate])
  · exact (c5_gate_priority_order 4 0 Fixtures.reqMinGate).2.2.2
      (by norm_num [Fixtures.reqMinGate, Fixtures.reqHistoryGate])
      (by norm_num [Fixtures.reqMinGate, Fixtures.reqHistoryGate])
      (by norm_num [Fixtures.reqMinGate, Fixtures.reqHistoryGate])
      (by norm_num [Fixtures.reqMinGate, Fixtures.reqHistoryGate])

/-- **C7** (counterexample).  A request with credit score 500 and a single
transaction hits the insufficient-history gate: the decision's proposed
terms are absent although its status is PendingReview, not Denied — so
"terms absent iff Denied" fails. -/
theorem c7_counterexample :
    (Decision.make_decision 1 0 Fixtures.reqHistoryGate).proposed_terms =
      none ∧
    (Decision.make_decision 1 0 Fixtures.reqHistoryGate).status ≠
      Decision.DecisionStatus.denied := by
  have h1 : ¬(Fixtures.reqHistoryGate.credit_score <
      Decision.min_credit_score) := by
    norm_num [Fixtures.reqHistoryGate, Decision.min_credit_score]
  have h2 : Fixtures.reqHistoryGate.transaction_count <
      Decision.min_transactions := by
    norm_num [Fixtures.reqHistoryGate, Decision.min_transactions]
  simp only [Decision.make_decision]
  rw [if_neg h1, if_pos h2]
  exact ⟨rfl, fun h => nomatch h⟩

/-- **C7** (amended): the proposed LoanTerms are absent iff the decision's
status is Denied *or* the request hit the preliminary insufficient-history
gate (credit score ≥ 400 but fewer than 3 transactions), whose PendingReview
decision is issued before terms are computed. -/
theorem c7_terms_absent_iff_amended :
    ∀ (n : ℕ) (now : ℤ) (r : Decision.LoanRequest),
      (Decision.make_decision n now r).proposed_terms = none ↔
        ((Decision.make_decision n now r).status =
           Decision.DecisionStatus.denied ∨
         (400 ≤ r.credit_score ∧ r.transaction_count < 3)) := by
  intro n now r
  by_cases h1 : r.credit_score < (400 : ℚ)
  · simp only [Decision.make_decision, Decision.min_credit_score]
    rw [if_pos h1]
    simp
  · by_cases h2 : r.transaction_count < 3
    · simp only [Decision.make_decision, Decision.min_credit_score,
        Decision.min_transactions]
      rw [if_neg h1, if_pos h2]
      simp [not_lt.mp h1, h2]
    · by_cases h3 : (500000 : ℚ) < r.borrow_amount_usd
      · simp only [Decision.make_decision, Decision.min_credit_score,
          Decision.min_transactions, Decision.max_loan_amount_usd]
        rw [if_neg h1, if_neg h2, if_pos h3]
        simp
      · by_cases h4 : r.borrow_amount_usd < (100 : ℚ)
        · simp only [Decision.make_decision, Decision.min_credit_score,
            Decision.min_transactions, Decision.max_loan_amount_usd,
            Decision.min_loan_amount_usd]
          rw [if_neg h1, if_neg h2, if_neg h3, if_pos h4]
          simp
        · simp only [Decision.make_decision, Decision.min_credit_score,
            Decision.min_transactions, Decision.max_loan_amount_usd,
            Decision.min_loan_amount_usd]
          rw [if_neg h1, if_neg h2, if_neg h3, if_neg h4]
          split <;> simp [h2]

namespace Scorecard

theorem volume_score_bounds (m : WalletMetrics) :
    0 ≤ calculate_transaction_volume_score m ∧
    calculate_transaction_volume_score m ≤ 20 := by
  simp only [calculate_transaction_volume_score]
  split_ifs <;> norm_num

theorem consistency_score_bounds (m : WalletMetrics) :
    0 ≤ calculate_payment_consistency_score m ∧
    calculate_payment_consistency_score m ≤ 20 := by
  simp only [calculate_payment_consistency_score]
  split_ifs <;> norm_num

theorem inflow_score_bounds (m : WalletMetrics) (txs : List Transaction) :
    0 ≤ calculate_inflow_reliability_score m txs ∧
    calculate_inflow_reliability_score m txs ≤ 20 := by
  simp only [calculate_inflow_reliability_score]
  split_ifs <;> norm_num

theorem balance_score_bounds (m : WalletMetrics) :
    0 ≤ calculate_balance_stability_score m ∧
    calculate_balance_stability_score m ≤ 20 := by
  simp only [calculate_balance_stability_score]
  split_ifs <;> norm_num

theorem success_score_bounds (m : WalletMetrics) :
    0 ≤ calculate_transaction_success_rate_score m ∧
    calculate_transaction_success_rate_score m ≤ 20 := by
  simp only [calculate_transaction_success_rate_score]
  split_ifs <;> norm_num

theorem rating_classifier_iff (x : ℚ) :
    ((if 750 ≤ x then CreditRating.excellent
      else if 650 ≤ x then CreditRating.very_good
      else if 550 ≤ x then CreditRating.good
      else if 450 ≤ x then CreditRating.fair
      else CreditRating.poor) = CreditRating.excellent ↔ 750 ≤ x) ∧
    ((if 750 ≤ x then CreditRating.excellent
      else if 650 ≤ x then CreditRating.very_good
      else if 550 ≤ x then CreditRating.good
      else if 450 ≤ x then CreditRating.fair
      else CreditRating.poor) = CreditRating.very_good ↔
        (650 ≤ x ∧ x < 750)) ∧
    ((if 750 ≤ x then CreditRating.excellent
      else if 650 ≤ x then CreditRating.very_good
      else if 550 ≤ x then CreditRating.good
      else if 450 ≤ x then CreditRating.fair
      else CreditRating.poor) = CreditRating.good ↔ (550 ≤ x ∧ x < 650)) ∧
    ((if 750 ≤ x then CreditRating.excellent
      else if 650 ≤ x then CreditRating.very_good
      else if 550 ≤ x then CreditRating.good
      else if 450 ≤ x then CreditRating.fair
      else CreditRating.poor) = CreditRating.fair ↔ (450 ≤ x ∧ x < 550)) ∧
    ((if 750 ≤ x then CreditRating.excellent
      else if 650 ≤ x then CreditRating.very_good
      else if 550 ≤ x then CreditRating.good
      else if 450 ≤ x then CreditRating.fair
      else CreditRating.poor) = CreditRating.poor ↔ x < 450) := by
  split_ifs with h1 h2 h3 h4 <;>
    refine ⟨?_, ?_, ?_, ?_, ?_⟩ <;>
      simp_all <;>
        first
          | (constructor <;> linarith)
          | (rintro ⟨ha, hb⟩ ; linarith)
          | (intro h0 ; linarith)
          | linarith

end Scorecard

/-- **C9** (counterexample).  A wallet with no transactions and balance 50
scores 470 (sub-scores 2, 2, 2, 5, 20) and gets borrow limit 553, but
1000 × (470/850) = 9400/17 is not 553: the borrow limit is the *rounded*
value, not 1000 × (score/850) itself. -/
theorem c9_counterexample :
    (Scorecard.generate_credit_score "EmptyWallet" 50 [] 0 0).credit_score =
      470 ∧
    (Scorecard.generate_credit_score "EmptyWallet" 50 [] 0 0).borrow_limit_usd =
      553 ∧
    (553 : ℚ) ≠ 1000 * ((470 : ℚ) / 850) := by
  refine ⟨?_, ?_, by norm_num⟩ <;>
    norm_num [Scorecard.generate_credit_score, Scorecard.calcWalletMetrics,
      Scorecard.calculate_transaction_volume_score,
      Scorecard.calculate_payment_consistency_score,
      Scorecard.calculate_inflow_reliability_score,
      Scorecard.calculate_balance_stability_score,
      Scorecard.calculate_transaction_success_rate_score,
      Scorecard.calculate_account_age_score, roundHalfEven]

/-- **C9** (amended).  For every wallet, `generate_credit_score` computes
the score as 300 + (average of the five sub-scores)/20 × 550 rounded to an
integer (ties to even); each sub-score lies in [0, 20]; the score lies in
[300, 850]; the rating tier follows the 750/650/550/450 breakpoints; and
the borrow limit is 1000 × (score/850) rounded to an integer (ties to
even). -/
theorem c9_score_formula_amended :
    ∀ (addr : String) (balance : ℚ) (txs : List Scorecard.Transaction)
      (age now : ℤ),
      (Scorecard.generate_credit_score addr balance txs age now).credit_score =
        ((roundHalfEven (300 +
          ((Scorecard.subScoreSum balance txs / 5) / 20) * 550) : ℤ) : ℚ) ∧
      (0 ≤ (Scorecard.generate_credit_score addr balance txs age
          now).credibility_factors.transaction_volume_score ∧
        (Scorecard.generate_credit_score addr balance txs age
          now).credibility_factors.transaction_volume_score ≤ 20) ∧
      (0 ≤ (Scorecard.generate_credit_score addr balance txs age
          now).credibility_factors.payment_consistency_score ∧
        (Scorecard.generate_credit_score addr balance txs age
          now).credibility_factors.payment_consistency_score ≤ 20) ∧
      (0 ≤ (Scorecard.generate_credit_score addr balance txs age
          now).credibility_factors.inflow_reliability_score ∧
        (Scorecard.generate_credit_score addr balance txs age
          now).credibility_factors.inflow_reliability_score ≤ 20) ∧
      (0 ≤ (Scorecard.generate_credit_score addr balance txs age
          now).credibility_factors.balance_stability_score ∧
        (Scorecard.generate_credit_score addr balance txs age
          now).credibility_factors.balance_stability_score ≤ 20) ∧
      (0 ≤ (Scorecard.generate_credit_score addr balance txs age
          now).credibility_factors.transaction_success_rate_score ∧
        (Scorecard.generate_credit_score addr balance txs age
          now).credibility_factors.transaction_success_rate_score ≤ 20) ∧
      ((300 : ℚ) ≤
        (Scorecard.generate_credit_score addr balance txs age
          now).credit_score ∧
        (Scorecard.generate_credit_score addr balance txs age
          now).credit_score ≤ 850) ∧
      ((Scorecard.generate_credit_score addr balance txs age
          now).credit_rating = Scorecard.CreditRating.excellent ↔
        750 ≤ (Scorecard.generate_credit_score addr balance txs age
          now).credit_score) ∧
      ((Scorecard.generate_credit_score addr balance txs age
          now).credit_rating = Scorecard.CreditRating.very_good ↔
        (650 ≤ (Scorecard.generate_credit_score addr balance txs age
          now).credit_score ∧
         (Scorecard.generate_credit_score addr balance txs age
          now).credit_score < 750)) ∧
      ((Scorecard.generate_credit_score addr balance txs age
          now).credit_rating = Scorecard.CreditRating.good ↔
        (550 ≤ (Scorecard.generate_credit_score addr balance txs age
          now).credit_score ∧
         (Scorecard.generate_credit_score addr balance txs age
          now).credit_score < 650)) ∧
      ((Scorecard.generate_credit_score addr balance txs age
          now).credit_rating = Scorecard.CreditRating.fair ↔
        (450 ≤ (Scorecard.generate_credit_score addr balance txs age
          now).credit_score ∧
         (Scorecard.generate_credit_score addr balance txs age
          now).credit_score < 550)) ∧
      ((Scorecard.generate_credit_score addr balance txs age
          now).credit_rating = Scorecard.CreditRating.poor ↔
        (Scorecard.generate_credit_score addr balance txs age
          now).credit_score < 450) ∧
      (Scorecard.generate_credit_score addr balance txs age
          now).borrow_limit_usd =
        ((roundHalfEven (1000 *
          ((Scorecard.generate_credit_score addr balance txs age
            now).credit_score / 850)) : ℤ) : ℚ) := by
  intro addr balance txs age now
  obtain ⟨hv0, hv1⟩ :=
    Scorecard.volume_score_bounds (Scorecard.calcWalletMetrics balance txs)
  obtain ⟨hc0, hc1⟩ :=
    Scorecard.consistency_score_bounds (Scorecard.calcWalletMetrics balance txs)
  obtain ⟨hi0, hi1⟩ :=
    Scorecard.inflow_score_bounds (Scorecard.calcWalletMetrics balance txs) txs
  obtain ⟨hb0, hb1⟩ :=
    Scorecard.balance_score_bounds (Scorecard.calcWalletMetrics balance txs)
  obtain ⟨hs0, hs1⟩ :=
    Scorecard.success_score_bounds (Scorecard.calcWalletMetrics balance txs)
  have hqlo : (300 : ℚ) ≤ 300 +
      ((Scorecard.subScoreSum balance txs / 5) / 20) * 550 := by
    simp only [Scorecard.subScoreSum]
    linarith
  have hqhi : 300 + ((Scorecard.subScoreSum balance txs / 5) / 20) * 550 ≤
      (850 : ℚ) := by
    simp only [Scorecard.subScoreSum]
    linarith
  have hlo : ((300 : ℤ) : ℚ) ≤
      ((roundHalfEven (300 +
        ((Scorecard.subScoreSum balance txs / 5) / 20) * 550) : ℤ) : ℚ) := by
    exact_mod_cast le_roundHalfEven (by exact_mod_cast hqlo)
  have hhi : ((roundHalfEven (300 +
      ((Scorecard.subScoreSum balance txs / 5) / 20) * 550) : ℤ) : ℚ) ≤
      ((850 : ℤ) : ℚ) := by
    exact_mod_cast roundHalfEven_le (by exact_mod_cast hqhi)
  simp only [Scorecard.subScoreSum] at hlo hhi
  refine ⟨?_, ?_, ?_, ?_, ?_, ?_, ?_, ?_, ?_, ?_, ?_, ?_, ?_⟩
  · simp only [Scorecard.generate_credit_score, Scorecard.subScoreSum]
  · simp only [Scorecard.generate_credit_score]
    exact ⟨hv0, hv1⟩
  · simp only [Scorecard.generate_credit_score]
    exact ⟨hc0, hc1⟩
  · simp only [Scorecard.generate_credit_score]
    exact ⟨hi0, hi1⟩
  · simp only [Scorecard.generate_credit_score]
    exact ⟨hb0, hb1⟩
  · simp only [Scorecard.generate_credit_score]
    exact ⟨hs0, hs1⟩
  · simp only [Scorecard.generate_credit_score]
    exact ⟨by exact_mod_cast hlo, by exact_mod_cast hhi⟩
  · simp only [Scorecard.generate_credit_score]
    exact (Scorecard.rating_classifier_iff _).1
  · simp only [Scorecard.generate_credit_score]
    exact (Scorecard.rating_classifier_iff _).2.1
  · simp only [Scorecard.generate_credit_score]
    exact (Scorecard.rating_classifier_iff _).2.2.1
  · simp only [Scorecard.generate_credit_score]
    exact (Scorecard.rating_classifier_iff _).2.2.2.1
  · simp only [Scorecard.generate_credit_score]
    exact (Scorecard.rating_classifier_iff _).2.2.2.2
  · simp only [Scorecard.generate_credit_score]

/-- **C8** (code evaluated at the failing input).  Wallets A ([5, 5]) and B
([2, 8]) have *identical* `WalletMetrics`, yet the inflow-reliability
sub-score — which reads the raw transaction list of the wallet stashed in
`self._current_wallet` — is 18 for A and 12 for B, and the final credit
scores differ (641 vs 608): the scoring is not a function of the metrics
alone. -/
theorem c8_inflow_score_reads_raw_transactions :
    Scorecard.calcWalletMetrics 50 Fixtures.txsA =
      Scorecard.calcWalletMetrics 50 Fixtures.txsB ∧
    Scorecard.calculate_inflow_reliability_score
      (Scorecard.calcWalletMetrics 50 Fixtures.txsA) Fixtures.txsA = 18 ∧
    Scorecard.calculate_inflow_reliability_score
      (Scorecard.calcWalletMetrics 50 Fixtures.txsB) Fixtures.txsB = 12 ∧
    (Scorecard.generate_credit_score "WalletA" 50 Fixtures.txsA 0
        0).credit_score = 641 ∧
    (Scorecard.generate_credit_score "WalletB" 50 Fixtures.txsB 0
        0).credit_score = 608 ∧
    (641 : ℚ) ≠ 608 := by
  refine ⟨?_, ?_, ?_, ?_, ?_, by norm_num⟩ <;>
    norm_num [Scorecard.generate_credit_score, Scorecard.calcWalletMetrics,
      Scorecard.calculate_transaction_volume_score,
      Scorecard.calculate_payment_consistency_score,
      Scorecard.calculate_inflow_reliability_score,
      Scorecard.calculate_balance_stability_score,
      Scorecard.calculate_transaction_success_rate_score,
      Scorecard.calculate_account_age_score, Scorecard.cvLtB,
      roundHalfEven, Fixtures.txsA, Fixtures.txsB,
      List.filter_cons, List.filter_nil, decide_eq_true_eq,
      show Scorecard.TransactionType.inflow ≠
          Scorecard.TransactionType.outflow from fun h => nomatch h]
